import Mathlib

/-!
Verification of the paws-on-mcp repository: a shallow embedding of the
relevant parts of `src/mcp_server.py` and `src/mcp_cli_client.py` in Lean 4,
together with theorems settling the specification claims.

Python values are modelled by the inductive type `PyVal`; code that can raise
an exception lives in the `PyM` monad (`Except PErr`); external HTTP calls,
randomness and clock reads are supplied by an explicit `Oracle` so that the
theorems quantify over every possible behaviour of the outside world.
-/

namespace PawsOnMCP

/-- A dynamic Python/JSON value.  Dictionary keys in the modelled code are
always strings, so dictionaries are association lists over `String`.
Python floats are modelled as rationals (no rounding behaviour of the modelled
code is claim-relevant). -/
inductive PyVal where
  | none
  | bool (b : Bool)
  | int (n : Int)
  | float (q : ℚ)
  | str (s : String)
  | list (xs : List PyVal)
  | dict (kvs : List (String × PyVal))

/-- Python exception classes that the modelled code can raise, each carrying
its message (`str(e)`).  Message texts follow CPython but drop the quote
characters around type and attribute names. -/
inductive PErr where
  | attributeError (msg : String)
  | typeError (msg : String)
  | valueError (msg : String)
  | jsonDecodeError (msg : String)
  | httpError (msg : String)
  | exception (msg : String)

/-- `str(e)`: the message carried by an exception. -/
def PErr.msg : PErr → String
  | .attributeError m => m
  | .typeError m => m
  | .valueError m => m
  | .jsonDecodeError m => m
  | .httpError m => m
  | .exception m => m

/-- The monad of possibly-raising Python computations. -/
abbrev PyM (α : Type) : Type := Except PErr α

/-- `try: body except Exception as e: return handler(e)` around a whole
function body (every `except Exception` in the modelled code wraps the full
body and returns a value). -/
def pyCatch (m : PyM PyVal) (h : PErr → PyVal) : PyVal :=
  match m with
  | .ok v => v
  | .error e => h e

/-- Python truthiness: `None`, `False`, `0`, `0.0`, `""`, `[]`, `{}` are
falsy, everything else truthy. -/
def pyTruthy : PyVal → Bool
  | .none => false
  | .bool b => b
  | .int n => n != 0
  | .float q => q != 0
  | .str s => s ≠ ""
  | .list xs => !xs.isEmpty
  | .dict kvs => !kvs.isEmpty

mutual
/-- Python `==` restricted to the comparisons the modelled code performs:
equality inside one type, numeric cross-type equality, `False` on any other
cross-type pair.  Dict/dict comparison is order-sensitive here; the modelled
code never compares two dicts. -/
def pyBeq : PyVal → PyVal → Bool
  | .none, .none => true
  | .bool a, .bool b => a == b
  | .int a, .int b => a == b
  | .float a, .float b => a == b
  | .int a, .float b => (a : ℚ) == b
  | .float a, .int b => a == (b : ℚ)
  | .str a, .str b => a == b
  | .list xs, .list ys => pyBeqList xs ys
  | .dict xs, .dict ys => pyBeqDict xs ys
  | _, _ => false

def pyBeqList : List PyVal → List PyVal → Bool
  | [], [] => true
  | x :: xs, y :: ys => pyBeq x y && pyBeqList xs ys
  | _, _ => false

def pyBeqDict : List (String × PyVal) → List (String × PyVal) → Bool
  | [], [] => true
  | (k, v) :: xs, (l, w) :: ys => k == l && pyBeq v w && pyBeqDict xs ys
  | _, _ => false
end

/-- Key lookup in a `PyVal` dict, `Option.none` for a missing key or a
non-dict; used in theorem statements to inspect results. -/
def dLook (v : PyVal) (k : String) : Option PyVal :=
  match v with
  | .dict kvs => kvs.lookup k
  | _ => Option.none

/-- `container.get(key, default)`: raises `AttributeError` unless the
container is a dict. -/
def pyGetD (v : PyVal) (k : String) (d : PyVal) : PyM PyVal :=
  match v with
  | .dict kvs => pure ((kvs.lookup k).getD d)
  | .list _ => throw (.attributeError ("list object has no attribute get"))
  | .str _ => throw (.attributeError ("str object has no attribute get"))
  | _ => throw (.attributeError ("object has no attribute get"))

/-- `container[key]` for a string key: dict lookup (`KeyError` when absent),
`TypeError` on non-dicts. -/
def pySubscr (v : PyVal) (k : String) : PyM PyVal :=
  match v with
  | .dict kvs =>
      match kvs.lookup k with
      | some w => pure w
      | Option.none => throw (.exception ("KeyError: " ++ k))
  | _ => throw (.typeError ("object is not subscriptable by str"))

/-- Substring test on lists of characters (`pat` occurs somewhere in `s`). -/
def containsSub (pat : List Char) : List Char → Bool
  | [] => pat.isPrefixOf []
  | c :: cs => pat.isPrefixOf (c :: cs) || containsSub pat cs

/-- Python `needle in container`: key membership for dicts, elementwise `==`
for lists, substring for strings (`TypeError` on a non-string needle),
`TypeError` for non-container right operands.  Unhashable needles against a
dict raise `TypeError`. -/
def pyInOp (needle : PyVal) (container : PyVal) : PyM Bool :=
  match container with
  | .dict kvs =>
      match needle with
      | .str s => pure (kvs.any (fun kv => kv.1 == s))
      | .list _ => throw (.typeError ("unhashable type: list"))
      | .dict _ => throw (.typeError ("unhashable type: dict"))
      | _ => pure false
  | .list xs => pure (xs.any (fun x => pyBeq needle x))
  | .str s =>
      match needle with
      | .str t => pure (containsSub t.toList s.toList)
      | _ => throw (.typeError ("in <string> requires string as left operand"))
  | _ => throw (.typeError ("argument is not iterable"))

/-- Python `len()`: `TypeError` on values without a length. -/
def pyLen : PyVal → PyM Nat
  | .str s => pure s.length
  | .list xs => pure xs.length
  | .dict kvs => pure kvs.length
  | _ => throw (.typeError ("object has no len"))

/-- Python `v[:n]` for a nonnegative bound: prefix of a list or string,
`TypeError` otherwise (in particular slicing a dict raises). -/
def pySliceTo (v : PyVal) (n : Nat) : PyM PyVal
  := match v with
  | .list xs => pure (.list (xs.take n))
  | .str s => pure (.str (String.mk (s.toList.take n)))
  | _ => throw (.typeError ("object is not subscriptable"))

/-- `for x in v`: the sequence of iterated values — list elements, the
characters of a string (as one-character strings), the keys of a dict;
`TypeError` for non-iterables. -/
def pyIterFor : PyVal → PyM (List PyVal)
  | .list xs => pure xs
  | .str s => pure (s.toList.map (fun c => .str (String.singleton c)))
  | .dict kvs => pure (kvs.map (fun kv => .str kv.1))
  | _ => throw (.typeError ("object is not iterable"))

/-- The population accepted by `random.sample`: sequences only (a dict is
rejected with `TypeError`, unlike `len`/iteration). -/
def pySeqForSample : PyVal → PyM (List PyVal)
  | .list xs => pure xs
  | .str s => pure (s.toList.map (fun c => .str (String.singleton c)))
  | _ => throw (.typeError ("population must be a sequence"))

/-- `v.lower()`: `AttributeError` on non-strings. -/
def pyLower : PyVal → PyM String
  | .str s => pure s.toLower
  | _ => throw (.attributeError ("object has no attribute lower"))

/-- `str(v)`, used only to interpolate values into URL strings and display
text that no claim inspects; containers are rendered without their inner
structure. -/
def pyStrOf : PyVal → String
  | .none => ("None")
  | .bool b => if b then ("True") else ("False")
  | .int n => toString n
  | .float q => toString q
  | .str s => s
  | .list _ => ("[...]")
  | .dict _ => ("\x7b...\x7d")

/-! ## External world: HTTP responses, randomness, clock (`Oracle`) -/

/-- One HTTP response: its status code and the outcome of `.json()` on it
(which can itself raise a decode error). -/
structure HResp where
  status : Nat
  body : PyM PyVal

/-- The behaviour of everything outside the process: the outcome of the k-th
HTTP request a handler makes (an exception, or a response), sources for
`random.*`, the current clock rendered by `isoformat`, and a JSON decoder for
`json.loads`.  Theorems quantify over all oracles. -/
structure Oracle where
  get : Nat → PyM HResp
  pick : Nat → Nat
  uniform : Nat → ℚ
  gauss : Nat → ℚ
  nowIso : String
  isoAt : Nat → String
  dateOffset : Nat → String
  loads : String → PyM PyVal

/-- `response.raise_for_status()`: raises on 4xx/5xx status codes. -/
def raiseForStatus (r : HResp) : PyM Unit :=
  if 400 ≤ r.status ∧ r.status ≤ 599 then
    throw (.httpError (("HTTP status error: ") ++ toString r.status))
  else pure ()

/-- `random.sample(pop, k)`: raises `ValueError` when `k` exceeds the
population size, otherwise returns exactly `k` elements of the population
chosen by the oracle. -/
def pySample (o : Oracle) (tag : Nat) (pop : List PyVal) (k : Nat) : PyM (List PyVal) :=
  if k ≤ pop.length then
    pure ((List.range k).map (fun i => pop.getD (o.pick (tag + i) % pop.length) PyVal.none))
  else throw (.valueError ("Sample larger than population or is negative"))

/-- Monadic map used to model `for`-loops that build a list, raising at the
first failing element exactly as the Python loop does. -/
def mapPyM (f : PyVal → PyM PyVal) : List PyVal → PyM (List PyVal)
  | [] => pure []
  | x :: xs => do
      let v ← f x
      let tail ← mapPyM f xs
      pure (v :: tail)

/-- `{"error": m}`. -/
def errDict (m : String) : PyVal := .dict [(("error"), .str m)]

/-! ## Python `int(str)` (for `get_sampling_data`) -/

/-- ASCII whitespace stripped by `str.strip()` / tolerated by `int()`. -/
def isPyWs (c : Char) : Bool :=
  c = ' ' || c = '\t' || c = '\n' || c = '\r' || c = Char.ofNat 11 || c = Char.ofNat 12

/-- `str.strip()` (ASCII whitespace; the modelled inputs are ASCII). -/
def pyStripChars (cs : List Char) : List Char :=
  ((cs.dropWhile isPyWs).reverse.dropWhile isPyWs).reverse

/-- Value of a digit string. -/
def digitsVal (cs : List Char) : Nat :=
  cs.foldl (fun acc c => 10 * acc + (c.toNat - 48)) 0

/-- Tail of a valid `int()` digit group: digits with single underscores
strictly between digits. -/
def validIntTail : List Char → Bool
  | [] => true
  | c :: cs =>
      if c = '_' then
        match cs with
        | [] => false
        | d :: ds => d.isDigit && validIntTail ds
      else c.isDigit && validIntTail cs

/-- A valid `int()` digit group is nonempty and starts with a digit. -/
def validIntDigits : List Char → Bool
  | [] => false
  | c :: cs => c.isDigit && validIntTail cs

/-- Numeric value of a digit group, ignoring underscores. -/
def intDigitsVal (cs : List Char) : Nat :=
  digitsVal (cs.filter (fun c => c ≠ '_'))

/-- Python `int(s)` on a string: optional surrounding whitespace, optional
sign, digits with single underscores between digits; `Option.none` models the
`ValueError` raise.  (Non-ASCII digits are not modelled; all claim-relevant
inputs are ASCII.) -/
def pyParseInt (s : String) : Option Int :=
  match pyStripChars s.toList with
  | '+' :: rest =>
      if validIntDigits rest then some (intDigitsVal rest : Int) else Option.none
  | '-' :: rest =>
      if validIntDigits rest then some (-(intDigitsVal rest : Int)) else Option.none
  | rest =>
      if validIntDigits rest then some (intDigitsVal rest : Int) else Option.none

/-! ## Server: `get_sampling_data` (mcp_server.py lines 96-149) -/

/-- `random.choice(["A", "B", "C", "D"])` for the i-th random sample. -/
def categoryOf (o : Oracle) (i : Nat) : PyVal :=
  .str ([("A"), ("B"), ("C"), ("D")].getD (o.pick i % 4) ("A"))

/-- The `"random"` branch of `get_sampling_data`. -/
def randomSamples (o : Oracle) (n : Int) : List PyVal :=
  (List.range n.toNat).map (fun i =>
    .dict [(("id"), .int (Int.ofNat i + 1)),
           (("value"), .float (o.uniform i)),
           (("category"), categoryOf o i),
           (("timestamp"), .str (o.isoAt i))])

/-- One entry of the `"sequential"` branch: id `i+1`, value `i*2.5`, status
alternating `"active"`/`"inactive"`. -/
def seqSample (o : Oracle) (i : Nat) : PyVal :=
  .dict [(("id"), .int (Int.ofNat i + 1)),
         (("value"), .float ((i : ℚ) * (5 / 2))),
         (("status"), .str (if i % 2 = 0 then ("active") else ("inactive"))),
         (("timestamp"), .str o.nowIso)]

/-- The `"sequential"` branch of `get_sampling_data`. -/
def sequentialSamples (o : Oracle) (n : Int) : List PyVal :=
  (List.range n.toNat).map (seqSample o)

/-- The `"distribution"` branch of `get_sampling_data`. -/
def distributionSamples (o : Oracle) (n : Int) : List PyVal :=
  (List.range n.toNat).map (fun i =>
    .dict [(("id"), .int (Int.ofNat i + 1)),
           (("measurement"), .float (o.gauss (2 * i))),
           (("quality"), .str (if 50 < o.gauss (2 * i + 1) then ("high") else ("low"))),
           (("timestamp"), .str o.nowIso)])

/-- The success dictionary returned by `get_sampling_data`. -/
def mkSamplingResult (o : Oracle) (st : String) (n : Int) (samples : List PyVal) : PyVal :=
  .dict [(("sampling_type"), .str st),
         (("requested_samples"), .int n),
         (("actual_samples"), .int (samples.length : Int)),
         (("generated_at"), .str o.nowIso),
         (("samples"), .list samples)]

/-- `get_sampling_data(sampling_type, num_samples)`: parses `num_samples`
with `int()` (the `except ValueError` clause turns a parse failure or an
out-of-range count into an error dict), then dispatches on `sampling_type`. -/
def get_sampling_data (o : Oracle) (sampling_type num_samples : String) : PyVal :=
  match pyParseInt num_samples with
  | Option.none =>
      errDict (("Invalid num_samples: invalid literal for int() with base 10: ") ++ num_samples)
  | some n =>
      if n ≤ 0 ∨ 1000 < n then
        errDict ("Invalid num_samples: Number of samples must be between 1 and 1000")
      else
        if sampling_type = ("random") then
          mkSamplingResult o sampling_type n (randomSamples o n)
        else if sampling_type = ("sequential") then
          mkSamplingResult o sampling_type n (sequentialSamples o n)
        else if sampling_type = ("distribution") then
          mkSamplingResult o sampling_type n (distributionSamples o n)
        else
          errDict (("Unknown sampling type: ") ++ sampling_type ++
            (". Available types: random, sequential, distribution"))

/-! ## Server: HackerNews handlers (mcp_server.py lines 270-400) -/

/-- The fallback story URL `f"https://news.ycombinator.com/item?id={story_id}"`. -/
def hnItemUrl (sid : PyVal) : String :=
  ("https://news.ycombinator.com/item?id=") ++ pyStrOf sid

/-- The story dictionary built by `get_hn_top_stories` for one story. -/
def mkTopStory (sid sd : PyVal) : PyM PyVal := do
  let idv ← pyGetD sd ("id") PyVal.none
  let title ← pyGetD sd ("title") PyVal.none
  let url ← pyGetD sd ("url") (.str (hnItemUrl sid))
  let score ← pyGetD sd ("score") PyVal.none
  let byv ← pyGetD sd ("by") PyVal.none
  let time ← pyGetD sd ("time") PyVal.none
  let desc ← pyGetD sd ("descendants") (.int 0)
  pure (.dict [(("id"), idv), (("title"), title), (("url"), url), (("score"), score),
               (("by"), byv), (("time"), time), (("descendants"), desc)])

/-- The per-story fetch loop of `get_hn_top_stories`: one HTTP request per id,
appending a story dict when the status is 200. -/
def fetchTopStories (o : Oracle) (k : Nat) : List PyVal → PyM (List PyVal)
  | [] => pure []
  | sid :: rest => do
      let r ← o.get k
      if r.status = 200 then do
        let sd ← r.body
        let item ← mkTopStory sid sd
        let tail ← fetchTopStories o (k + 1) rest
        pure (item :: tail)
      else
        fetchTopStories o (k + 1) rest

/-- The `try` body of `get_hn_top_stories`, taking the already clamped
limit. -/
def get_hn_top_stories_body (o : Oracle) (limit : Int) : PyM PyVal := do
  let resp ← o.get 0
  raiseForStatus resp
  let ids ← resp.body
  let top ← pySliceTo ids limit.toNat
  let elems ← pyIterFor top
  let stories ← fetchTopStories o 1 elems
  pure (.list stories)

/-- `get_hn_top_stories(limit)`: clamps `limit` to `[1, 30]`, fetches the id
list and then each story; any exception becomes a one-element error list. -/
def get_hn_top_stories (o : Oracle) (limit : Int) : PyVal :=
  let limit := min (max 1 limit) 30
  pyCatch (get_hn_top_stories_body o limit)
    (fun e => .list [errDict (("Failed to fetch HackerNews stories: ") ++ e.msg)])

/-- The story dictionary built by `search_hackernews` for one match. -/
def mkSearchStory (sid sd : PyVal) : PyM PyVal := do
  let idv ← pyGetD sd ("id") PyVal.none
  let title ← pyGetD sd ("title") PyVal.none
  let url ← pyGetD sd ("url") (.str (hnItemUrl sid))
  let score ← pyGetD sd ("score") PyVal.none
  let byv ← pyGetD sd ("by") PyVal.none
  pure (.dict [(("id"), idv), (("title"), title), (("url"), url),
               (("score"), score), (("by"), byv)])

/-- The search loop of `search_hackernews`: stops (without a further request)
once `limit` matches are collected; skips non-200 stories and non-matching
titles. -/
def searchLoop (o : Oracle) (q : String) (limit : Nat) (k : Nat) (cnt : Nat) :
    List PyVal → PyM (List PyVal)
  | [] => pure []
  | sid :: rest =>
      if limit ≤ cnt then pure []
      else do
        let r ← o.get k
        if r.status = 200 then do
          let sd ← r.body
          let title ← pyGetD sd ("title") (.str (""))
          let tl ← pyLower title
          if containsSub q.toLower.toList tl.toList then do
            let item ← mkSearchStory sid sd
            let tail ← searchLoop o q limit (k + 1) (cnt + 1) rest
            pure (item :: tail)
          else
            searchLoop o q limit (k + 1) cnt rest
        else
          searchLoop o q limit (k + 1) cnt rest

/-- The `try` body of `search_hackernews`, taking the already clamped
limit. -/
def search_hackernews_body (o : Oracle) (query : String) (limit : Int) : PyM PyVal := do
  let resp ← o.get 0
  raiseForStatus resp
  let ids ← resp.body
  let ids100 ← pySliceTo ids 100
  let elems ← pyIterFor ids100
  let found ← searchLoop o query limit.toNat 1 0 elems
  pure (.list found)

/-- `search_hackernews(query, limit)`: clamps `limit` to `[1, 20]`, scans the
top 100 ids for titles containing the query (case-insensitively). -/
def search_hackernews (o : Oracle) (query : String) (limit : Int) : PyVal :=
  let limit := min (max 1 limit) 20
  pyCatch (search_hackernews_body o query limit)
    (fun e => .list [errDict (("Failed to search HackerNews: ") ++ e.msg)])

/-- The sampled-story dictionary of `sample_hackernews_stories` (adds the
`"sampled"` marker). -/
def mkSampledStory (sid sd : PyVal) : PyM PyVal := do
  let idv ← pyGetD sd ("id") PyVal.none
  let title ← pyGetD sd ("title") PyVal.none
  let url ← pyGetD sd ("url") (.str (hnItemUrl sid))
  let score ← pyGetD sd ("score") PyVal.none
  let byv ← pyGetD sd ("by") PyVal.none
  let time ← pyGetD sd ("time") PyVal.none
  let desc ← pyGetD sd ("descendants") (.int 0)
  pure (.dict [(("id"), idv), (("title"), title), (("url"), url), (("score"), score),
               (("by"), byv), (("time"), time), (("descendants"), desc),
               (("sampled"), .bool true)])

/-- The per-story fetch loop of `sample_hackernews_stories`. -/
def fetchSampledStories (o : Oracle) (k : Nat) : List PyVal → PyM (List PyVal)
  | [] => pure []
  | sid :: rest => do
      let r ← o.get k
      if r.status = 200 then do
        let sd ← r.body
        let item ← mkSampledStory sid sd
        let tail ← fetchSampledStories o (k + 1) rest
        pure (item :: tail)
      else
        fetchSampledStories o (k + 1) rest

/-- The `try` body of `sample_hackernews_stories` (clamps happen outside):
samples `min(count, len(ids))` of the top-100 ids and fetches each. -/
def sample_hackernews_stories_body (o : Oracle) (count : Int) : PyM PyVal := do
  let resp ← o.get 0
  raiseForStatus resp
  let ids ← resp.body
  let ids100 ← pySliceTo ids 100
  let l ← pyLen ids100
  let pop ← pySeqForSample ids100
  let sampled ← pySample o 0 pop (min count.toNat l)
  let stories ← fetchSampledStories o 1 sampled
  pure (.list stories)

/-- `sample_hackernews_stories(count)` proper: clamp, `try` body, handler. -/
def sample_hackernews_stories (o : Oracle) (count : Int) : PyVal :=
  let count := min (max 1 count) 20
  pyCatch (sample_hackernews_stories_body o count)
    (fun e => .list [errDict (("Failed to sample HackerNews stories: ") ++ e.msg)])

/-! ## Server: GitHub handlers (mcp_server.py lines 218-268, 404-495) -/

/-- The GitHub search query of `get_github_trending` (`get_date_offset` is
the oracle's `dateOffset`). -/
def githubQueryString (o : Oracle) (language since : String) : String :=
  let base := ("sort:stars")
  let withLang :=
    if language ≠ ("") ∧ language ≠ ("all") then base ++ (" language:") ++ language else base
  let days : Nat := if since = ("daily") then 1 else if since = ("weekly") then 7 else 30
  withLang ++ (" created:>=") ++ o.dateOffset days

/-- The repository dictionary built by `get_github_trending` for one item. -/
def mkTrendingRepo (repo : PyVal) : PyM PyVal := do
  let name ← pyGetD repo ("full_name") PyVal.none
  let desc ← pyGetD repo ("description") PyVal.none
  let url ← pyGetD repo ("html_url") PyVal.none
  let stars ← pyGetD repo ("stargazers_count") PyVal.none
  let lang ← pyGetD repo ("language") PyVal.none
  let forks ← pyGetD repo ("forks_count") PyVal.none
  pure (.dict [(("name"), name), (("description"), desc), (("url"), url),
               (("stars"), stars), (("language"), lang), (("forks"), forks)])

/-- The `try` body of `get_github_trending`: queries the search API and
reshapes the items. -/
def get_github_trending_body (o : Oracle) (language since : String) : PyM PyVal := do
  let _query := githubQueryString o language since
  let resp ← o.get 0
  raiseForStatus resp
  let data ← resp.body
  let items ← pyGetD data ("items") (.list [])
  let elems ← pyIterFor items
  let repos ← mapPyM mkTrendingRepo elems
  pure (.list repos)

/-- `get_github_trending(language, since)` proper: `since` validation outside
the `try`, then body and handler. -/
def get_github_trending (o : Oracle) (language since : String) : PyVal :=
  let since :=
    if since = ("daily") ∨ since = ("weekly") ∨ since = ("monthly") then since else ("daily")
  pyCatch (get_github_trending_body o language since)
    (fun e => .list [errDict (("Failed to fetch GitHub trending repos: ") ++ e.msg)])

/-- The `try` body of `get_github_repo_info`: fetches one repository and
reshapes its metadata into a fixed ten-key dictionary. -/
def get_github_repo_info_body (o : Oracle) (owner repo : String) : PyM PyVal := do
  let _url := ("https://api.github.com/repos/") ++ owner ++ ("/") ++ repo
  let resp ← o.get 0
  raiseForStatus resp
  let rd ← resp.body
  let name ← pyGetD rd ("full_name") PyVal.none
  let desc ← pyGetD rd ("description") PyVal.none
  let url ← pyGetD rd ("html_url") PyVal.none
  let stars ← pyGetD rd ("stargazers_count") PyVal.none
  let forks ← pyGetD rd ("forks_count") PyVal.none
  let issues ← pyGetD rd ("open_issues_count") PyVal.none
  let lang ← pyGetD rd ("language") PyVal.none
  let created ← pyGetD rd ("created_at") PyVal.none
  let updated ← pyGetD rd ("updated_at") PyVal.none
  let topics ← pyGetD rd ("topics") (.list [])
  pure (.dict [(("name"), name), (("description"), desc), (("url"), url),
               (("stars"), stars), (("forks"), forks), (("issues"), issues),
               (("language"), lang), (("created_at"), created),
               (("updated_at"), updated), (("topics"), topics)])

/-- `get_github_repo_info(owner, repo)` proper: body and handler. -/
def get_github_repo_info (o : Oracle) (owner repo : String) : PyVal :=
  pyCatch (get_github_repo_info_body o owner repo)
    (fun e => errDict (("Failed to fetch repository info: ") ++ e.msg))

/-- The repository dictionary built by `sample_repositories_resource` (adds
the `"sampled"` marker). -/
def mkSampledRepo (repo : PyVal) : PyM PyVal := do
  let name ← pyGetD repo ("full_name") PyVal.none
  let desc ← pyGetD repo ("description") PyVal.none
  let url ← pyGetD repo ("html_url") PyVal.none
  let stars ← pyGetD repo ("stargazers_count") PyVal.none
  let lang ← pyGetD repo ("language") PyVal.none
  let forks ← pyGetD repo ("forks_count") PyVal.none
  pure (.dict [(("name"), name), (("description"), desc), (("url"), url),
               (("stars"), stars), (("language"), lang), (("forks"), forks),
               (("sampled"), .bool true)])

/-- The search query of `sample_repositories_resource`. -/
def sampleReposQuery (language : String) : String :=
  if language ≠ ("") ∧ language ≠ ("all") then ("sort:stars language:") ++ language
  else ("sort:stars")

/-- The `try` body of `sample_repositories_resource` (clamp happens
outside): fetches up to 50 repositories, samples `count` of them when more
were returned, and reshapes each. -/
def sample_repositories_resource_body (o : Oracle) (language : String)
    (count : Int) : PyM PyVal := do
  let _query := sampleReposQuery language
  let resp ← o.get 0
  raiseForStatus resp
  let data ← resp.body
  let repositories ← pyGetD data ("items") (.list [])
  let l ← pyLen repositories
  let reposV ←
    if count.toNat < l then do
      let pop ← pySeqForSample repositories
      let sampled ← pySample o 0 pop count.toNat
      pure (PyVal.list sampled)
    else pure repositories
  let elems ← pyIterFor reposV
  let out ← mapPyM mkSampledRepo elems
  pure (.list out)

/-- `sample_repositories_resource(language, count)` proper: clamp outside the
`try`, then body and handler. -/
def sample_repositories_resource (o : Oracle) (language : String) (count : Int) : PyVal :=
  let count := min (max 1 count) 10
  pyCatch (sample_repositories_resource_body o language count)
    (fun e => .list [errDict (("Failed to sample repositories: ") ++ e.msg)])

/-! ## Server: `create_sampling_request` (mcp_server.py lines 688-781) -/

/-- The protocol version constant of mcp_server.py. -/
def MCP_PROTOCOL_VERSION : String := ("2025-03-26")

mutual
/-- `json.dumps` (the `indent=2` whitespace layout is not reproduced; no
claim inspects the rendered text, which is only appended to a prompt). -/
def pyDumps : PyVal → String
  | .none => ("null")
  | .bool b => if b then ("true") else ("false")
  | .int n => toString n
  | .float q => toString q
  | .str s => ("\"") ++ s ++ ("\"")
  | .list xs => ("[") ++ pyDumpsList xs ++ ("]")
  | .dict kvs => ("\x7b") ++ pyDumpsDict kvs ++ ("\x7d")

def pyDumpsList : List PyVal → String
  | [] => ("")
  | [x] => pyDumps x
  | x :: xs => pyDumps x ++ (", ") ++ pyDumpsList xs

def pyDumpsDict : List (String × PyVal) → String
  | [] => ("")
  | [(k, v)] => ("\"") ++ k ++ ("\": ") ++ pyDumps v
  | (k, v) :: kvs => ("\"") ++ k ++ ("\": ") ++ pyDumps v ++ (", ") ++ pyDumpsDict kvs
end

/-- The `modelPreferences` dictionary entries of `create_sampling_request`
(the `hints` entry is added when `model_hint` is truthy, i.e. a nonempty
string). -/
def modelPrefs (model_hint : Option String)
    (intelligence_priority cost_priority speed_priority : ℚ) : List (String × PyVal) :=
  [(("intelligencePriority"), .float intelligence_priority),
   (("costPriority"), .float cost_priority),
   (("speedPriority"), .float speed_priority)] ++
  (match model_hint with
   | some h => if h ≠ ("") then [(("hints"), .list [.dict [(("name"), .str h)]])] else []
   | Option.none => [])

/-- `create_sampling_request`: validates the three priorities, builds the one
user message (appending the dumped `context_data` and an annotations block
when `context_data` is truthy), and wraps everything into the
`sampling/createMessage` request.  The function performs no HTTP call, hence
takes no `Oracle`; its `try` body cannot raise in this model (`json.dumps`
is total on `PyVal`). -/
def create_sampling_request (p : String) (context_data : PyVal)
    (max_tokens : Int) (temperature : ℚ) (model_hint : Option String)
    (intelligence_priority cost_priority speed_priority : ℚ) : PyVal :=
  if ¬(0 ≤ intelligence_priority ∧ intelligence_priority ≤ 1) then
    errDict ("intelligence_priority must be between 0.0 and 1.0")
  else if ¬(0 ≤ cost_priority ∧ cost_priority ≤ 1) then
    errDict ("cost_priority must be between 0.0 and 1.0")
  else if ¬(0 ≤ speed_priority ∧ speed_priority ≤ 1) then
    errDict ("speed_priority must be between 0.0 and 1.0")
  else
    let hasCtx := pyTruthy context_data
    let text := if hasCtx then p ++ ("\n\nContext data: ") ++ pyDumps context_data else p
    let content : PyVal :=
      if hasCtx then
        .dict [(("type"), .str ("text")), (("text"), .str text),
               (("annotations"),
                .dict [(("audience"), .list [.str ("human"), .str ("assistant")]),
                       (("priority"), .float (4 / 5))])]
      else
        .dict [(("type"), .str ("text")), (("text"), .str text)]
    let messages : PyVal := .list [.dict [(("role"), .str ("user")), (("content"), content)]]
    let prefs := modelPrefs model_hint intelligence_priority cost_priority speed_priority
    let serverCtx : PyVal := if pyTruthy context_data then context_data else .dict []
    let samplingRequest : PyVal :=
      .dict [(("method"), .str ("sampling/createMessage")),
             (("params"),
              .dict [(("messages"), messages),
                     (("maxTokens"), .int max_tokens),
                     (("temperature"), .float temperature),
                     (("modelPreferences"), .dict prefs),
                     (("includeContext"), .str ("thisServer")),
                     (("_meta"),
                      .dict [(("protocolVersion"), .str MCP_PROTOCOL_VERSION),
                             (("serverContext"), serverCtx)])])]
    .dict [(("sampling_request"), samplingRequest),
           (("status"), .str ("ready_for_client")),
           (("description"),
            .str (("MCP ") ++ MCP_PROTOCOL_VERSION ++
              (" sampling request with enhanced model preferences"))),
           (("model_preferences"), .dict prefs)]

/-! ## Client: SSE body parsing (mcp_cli_client.py lines 95-106) -/

/-- Python `content.split('\n')` on a character list. -/
def splitLines : List Char → List (List Char)
  | [] => [[]]
  | c :: cs =>
      if c = '\n' then [] :: splitLines cs
      else
        match splitLines cs with
        | [] => [[c]]
        | l :: ls => (c :: l) :: ls

/-- The `"data: "` prefix of SSE data lines. -/
def dataPrefix : List Char := ("data: ").toList

/-- The line scan of `_parse_sse_response`: the decode of the first
`data: `-prefixed line whose payload decodes, else `Option.none`.  `dec`
abstracts `json.loads` (returning `Option.none` for a `JSONDecodeError`). -/
def firstDataLine (dec : List Char → Option PyVal) : List (List Char) → Option PyVal
  | [] => Option.none
  | l :: ls =>
      if dataPrefix.isPrefixOf l then
        match dec (l.drop 6) with
        | some v => some v
        | Option.none => firstDataLine dec ls
      else firstDataLine dec ls

/-- `MCPClient._parse_sse_response`: strips the body, requires the substring
`"data: "` somewhere, then scans the lines. -/
def parse_sse_response (dec : List Char → Option PyVal) (content : List Char) : Option PyVal :=
  let content := pyStripChars content
  if containsSub dataPrefix content then firstDataLine dec (splitLines content)
  else Option.none

/-- The parsing rule exactly as claim C3 words it, applied to the raw
response body (no stripping): decode the remainder of the first
`data: `-prefixed line that decodes. -/
def claimedParseSSE (dec : List Char → Option PyVal) (content : List Char) : Option PyVal :=
  firstDataLine dec (splitLines content)

/-- A miniature `json.loads` for concrete counterexamples: decodes exactly
the JSON integer literals without sign (optionally surrounded by whitespace,
no leading zero), agreeing with `json.loads` on every string it accepts. -/
def jsonNumDec (cs : List Char) : Option PyVal :=
  let t := pyStripChars cs
  if (!t.isEmpty) ∧ t.all Char.isDigit ∧ (2 ≤ t.length → t.head? ≠ some '0') then
    some (.int (digitsVal t : Int))
  else Option.none

/-! ## Client: session initialization (mcp_cli_client.py lines 30-93) -/

/-- The observable part of an HTTP response seen by the client: status code,
the `mcp-session-id` response header (absent or its string value), and the
body text. -/
structure HttpResponse where
  status : Nat
  sessionHeader : Option String
  body : List Char

/-- `result and "result" in result`: truthiness short-circuit, then Python
`in` (which raises on non-container results). -/
def condResultOk (r : PyVal) : PyM Bool :=
  if pyTruthy r then pyInOp (.str ("result")) r else pure false

/-- The body of `MCPClient._initialize` up to the `initialized` notification:
each `raise` is a `throw`, and a successful run returns the stored
`server_info` and the session id.  Mirrors the source order: status check,
SSE parse, `result and "result" in result`, `result.get("result", {})`,
session-id truthiness check. -/
def initAttempt (dec : List Char → Option PyVal) (resp : HttpResponse) :
    Except PErr (PyVal × String) := do
  if resp.status = 200 then
    match parse_sse_response dec resp.body with
    | some r => do
        let b ← condResultOk r
        if b then do
          let si ← pyGetD r ("result") (.dict [])
          match resp.sessionHeader with
          | some sid =>
              if sid = ("") then throw (.exception ("No session ID received from server"))
              else pure (si, sid)
          | Option.none => throw (.exception ("No session ID received from server"))
        else throw (.exception ("Failed to parse initialization response"))
    | Option.none => throw (.exception ("Failed to parse initialization response"))
  else throw (.exception ("Failed to initialize"))

/-- Outcome of client construction: `exited` models the
`except: ... sys.exit(1)` handler; `ready` carries the stored server info and
session id. -/
inductive InitResult where
  | exited
  | ready (serverInfo : PyVal) (sessionId : String)

/-- `MCPClient._initialize` as a whole.  The boolean records whether the
`notifications/initialized` POST was sent: it is sent exactly on the
successful path (a non-200 status of that second POST only prints a warning
and does not change the outcome). -/
def clientInit (dec : List Char → Option PyVal) (resp : HttpResponse) : InitResult × Bool :=
  match initAttempt dec resp with
  | .ok (si, sid) => (InitResult.ready si sid, true)
  | .error _ => (InitResult.exited, false)

/-! ## Client: request phase (mcp_cli_client.py lines 108-234) -/

/-- The JSON-RPC payload `_make_request` builds: the `params` member is
included only when the passed params dict is truthy. -/
structure RpcPayload where
  jsonrpc : String
  id : String
  method : String
  params : Option PyVal

/-- Payload construction inside `_make_request` (lines 113-120). -/
def requestPayload (reqId method : String) (params : Option PyVal) : RpcPayload :=
  { jsonrpc := ("2.0"), id := reqId, method := method,
    params :=
      match params with
      | some p => if pyTruthy p then some p else Option.none
      | Option.none => Option.none }

/-- The client's mutable state relevant to the claims: `self.session_id`.
It is written only in `__init__` (to `None`) and `_initialize` (line 69). -/
structure ClientState where
  sessionId : Option String

/-- One HTTP POST issued by `_make_request`: the `MCP-Session-ID` header
value it carries and its JSON payload. -/
structure SentRequest where
  headerSessionId : String
  payload : RpcPayload

/-- The request side of `MCPClient._make_request`: with a falsy
`session_id` (`None` or `""`) it raises (`Option.none`: no request is
issued); otherwise it issues exactly one POST carrying the session id.
The response-processing half (lines 128-145) is not needed by any claim. -/
def make_request (st : ClientState) (reqId method : String) (params : Option PyVal) :
    Option SentRequest :=
  match st.sessionId with
  | Option.none => Option.none
  | some sid =>
      if sid = ("") then Option.none
      else some { headerSessionId := sid, payload := requestPayload reqId method params }

/-- `MCPClient.list_tools`: `tools/list`, no params; the state is returned
unchanged (the source assigns no attribute). -/
def list_tools (st : ClientState) (reqId : String) : ClientState × Option SentRequest :=
  (st, make_request st reqId ("tools/list") Option.none)

/-- `MCPClient.list_resources`: `resources/list`, no params. -/
def list_resources (st : ClientState) (reqId : String) : ClientState × Option SentRequest :=
  (st, make_request st reqId ("resources/list") Option.none)

/-- `MCPClient.list_prompts`: a `tools/call` of the `get_server_prompts`
tool. -/
def list_prompts (st : ClientState) (reqId : String) : ClientState × Option SentRequest :=
  (st, make_request st reqId ("tools/call")
    (some (.dict [(("name"), .str ("get_server_prompts")), (("arguments"), .dict [])])))

/-- `MCPClient.call_tool`: `tools/call` with tool name and arguments. -/
def call_tool (st : ClientState) (reqId tool_name : String) (args : PyVal) :
    ClientState × Option SentRequest :=
  (st, make_request st reqId ("tools/call")
    (some (.dict [(("name"), .str tool_name), (("arguments"), args)])))

/-- `MCPClient.get_resource`: `resources/read` with the resource URI. -/
def get_resource (st : ClientState) (reqId resource_uri : String) :
    ClientState × Option SentRequest :=
  (st, make_request st reqId ("resources/read")
    (some (.dict [(("uri"), .str resource_uri)])))

/-- `MCPClient.read_root`: `resources/read` with the root URI. -/
def read_root (st : ClientState) (reqId root_uri : String) :
    ClientState × Option SentRequest :=
  (st, make_request st reqId ("resources/read")
    (some (.dict [(("uri"), .str root_uri)])))

/-- `MCPClient.get_prompt`: `prompts/get` with prompt name and arguments. -/
def get_prompt (st : ClientState) (reqId prompt_name : String) (args : PyVal) :
    ClientState × Option SentRequest :=
  (st, make_request st reqId ("prompts/get")
    (some (.dict [(("name"), .str prompt_name), (("arguments"), args)])))

/-- `MCPClient.list_roots`: a `tools/call` of the `get_server_roots` tool. -/
def list_roots (st : ClientState) (reqId : String) : ClientState × Option SentRequest :=
  (st, make_request st reqId ("tools/call")
    (some (.dict [(("name"), .str ("get_server_roots")), (("arguments"), .dict [])])))

/-! ## Client: `handle_sampling_request` (mcp_cli_client.py lines 236-282) -/

/-- The fixed simulated completion text. -/
def simulatedText : String :=
  ("This is a simulated LLM response. In a real implementation, this would contain the actual AI-generated analysis based on the sampling request.")

/-- The simulated assistant response, parameterized by the summed text
length (before the `// 4`). -/
def simResponse (total : Nat) : PyVal :=
  .dict [(("model"), .str ("simulated-claude-3-sonnet")),
         (("role"), .str ("assistant")),
         (("content"), .dict [(("type"), .str ("text")), (("text"), .str simulatedText)]),
         (("stopReason"), .str ("endTurn")),
         (("usage"),
          .dict [(("inputTokens"), .int (Int.ofNat (total / 4))),
                 (("outputTokens"), .int 50)])]

/-- The message-display step of `handle_sampling_request` for one message:
only its raising behaviour matters (the text is printed).  Skips non-dict
contents and contents without `"text"`, truncates long texts (raising on an
unsliceable text or a non-string truncation). -/
def displayMsg (msg : PyVal) : PyM Unit := do
  let content ← pyGetD msg ("content") (.dict [])
  match content with
  | .dict kvs =>
      match kvs.lookup ("text") with
      | some tv => do
          let l ← pyLen tv
          if 200 < l then do
            let sl ← pySliceTo tv 200
            match sl with
            | .str _ => pure ()
            | _ => throw (.typeError ("can only concatenate str to str"))
          else pure ()
          let _ ← pyGetD msg ("role") (.str ("unknown"))
          pure ()
      | Option.none => pure ()
  | _ => pure ()

/-- The display loop over all messages. -/
def displayMsgs : List PyVal → PyM Unit
  | [] => pure ()
  | m :: ms => do
      displayMsg m
      displayMsgs ms

/-- `len(msg.get("content", {}).get("text", ""))` for one message. -/
def textLenOf (msg : PyVal) : PyM Nat := do
  let c ← pyGetD msg ("content") (.dict [])
  let t ← pyGetD c ("text") (.str (""))
  pyLen t

/-- The `usage.inputTokens` sum (before the `// 4`). -/
def sumTextLens : List PyVal → PyM Nat
  | [] => pure 0
  | m :: ms => do
      let a ← textLenOf m
      let b ← sumTextLens ms
      pure (a + b)

/-- `MCPClient.handle_sampling_request(sampling_data)`: the input dict is an
association list.  Without a `"sampling_request"` key it returns the fixed
error dict; otherwise it evaluates the display panel (whose `.get`/`len`
calls can raise on malformed values, uncaught), the message loop, and the
usage sum, and returns the simulated response. -/
def handle_sampling_request (sampling_data : List (String × PyVal)) : PyM PyVal := do
  match sampling_data.lookup ("sampling_request") with
  | Option.none => pure (errDict ("No sampling request found in response"))
  | some request => do
      let params ← pyGetD request ("params") (.dict [])
      let _ ← pyGetD request ("method") (.str ("Unknown"))
      let msgsV ← pyGetD params ("messages") (.list [])
      let _ ← pyLen msgsV
      let _ ← pyGetD params ("maxTokens") (.str ("Not specified"))
      let _ ← pyGetD params ("temperature") (.str ("Not specified"))
      let _ ← pyGetD params ("systemPrompt") PyVal.none
      let _ ← pyGetD params ("includeContext") (.str ("none"))
      let msgsV2 ← pyGetD params ("messages") (.list [])
      let msgs ← pyIterFor msgsV2
      displayMsgs msgs
      let total ← sumTextLens msgs
      pure (simResponse total)

/-- Well-formedness of one message as `handle_sampling_request` needs it: a
dict whose `content` (when present) is a dict whose `text` (when present) is
a string. -/
def wfMsg : PyVal → Bool
  | .dict mkvs =>
      match mkvs.lookup ("content") with
      | Option.none => true
      | some (.dict ckvs) =>
          match ckvs.lookup ("text") with
          | Option.none => true
          | some (.str _) => true
          | some _ => false
      | some _ => false
  | _ => false

/-- Well-formedness of a `sampling_request` value: a dict whose `params`
(when present) is a dict whose `messages` (when present) is a list of
well-formed messages. -/
def wfSamplingRequest : PyVal → Bool
  | .dict rkvs =>
      match rkvs.lookup ("params") with
      | Option.none => true
      | some (.dict pkvs) =>
          match pkvs.lookup ("messages") with
          | Option.none => true
          | some (.list ms) => ms.all wfMsg
          | some _ => false
      | some _ => false
  | _ => false

/-- The summed content-text length of a well-formed request, as the claim
words it ("sum of the lengths of the messages' content text fields"). -/
def claimedMsgTextLen : PyVal → Nat
  | .dict mkvs =>
      match mkvs.lookup ("content") with
      | some (.dict ckvs) =>
          match ckvs.lookup ("text") with
          | some (.str t) => t.length
          | _ => 0
      | _ => 0
  | _ => 0

/-- Total claimed input length of a request value. -/
def claimedTextSum : PyVal → Nat
  | .dict rkvs =>
      match rkvs.lookup ("params") with
      | some (.dict pkvs) =>
          match pkvs.lookup ("messages") with
          | some (.list ms) => (ms.map claimedMsgTextLen).sum
          | _ => 0
      | _ => 0
  | _ => 0

/-! ## Server: the two AI-analysis tools (mcp_server.py lines 783-984) -/

/-- The `json.loads` loop over `stories.get("content", [])` items in
`analyze_hackernews_trends_with_ai`: parses each text item, skipping decode
failures (`except json.JSONDecodeError: continue`); any other exception
propagates. -/
def parseStoryItems (o : Oracle) : List PyVal → PyM (List PyVal)
  | [] => pure []
  | item :: rest => do
      let t ← pyGetD item ("type") PyVal.none
      if pyBeq t (.str ("text")) then do
        let txt ← pySubscr item ("text")
        match txt with
        | .str s =>
            match o.loads s with
            | .ok sd => do
                let tail ← parseStoryItems o rest
                pure (sd :: tail)
            | .error (.jsonDecodeError _) => parseStoryItems o rest
            | .error e => throw e
        | _ => throw (.typeError ("the JSON object must be str"))
      else parseStoryItems o rest

/-- Python `xs[:n]` with a possibly negative `n`. -/
def pyListTakeInt (xs : List PyVal) (n : Int) : List PyVal :=
  if n < 0 then xs.take (xs.length - (-n).toNat) else xs.take n.toNat

/-- One `- {title} ({score} points)` summary line. -/
def storyTitleLine (story : PyVal) : PyM String := do
  let t ← pyGetD story ("title") (.str ("No title"))
  let s ← pyGetD story ("score") (.int 0)
  pure (("- ") ++ pyStrOf t ++ (" (") ++ pyStrOf s ++ (" points)"))

/-- The summary lines of the analysis prompt. -/
def buildSummaryLines : List PyVal → PyM (List String)
  | [] => pure []
  | s :: ss => do
      let l ← storyTitleLine s
      let tail ← buildSummaryLines ss
      pure (l :: tail)

/-- The analysis prompt text (its long fixed literal is condensed; no claim
inspects this text, which sits on a path made unreachable by the `.get` on a
list). -/
def analysisPromptText (topic analysis_type summary : String) : String :=
  ("Please analyze these HackerNews stories about ") ++ topic ++ (":\n\n") ++ summary ++
  ("\n\nProvide a ") ++ analysis_type ++
  (" analysis covering themes, sentiment, developments, impact and takeaways.")

/-- `analyze_hackernews_trends_with_ai(topic, count, analysis_type)`:
collects stories with `search_hackernews` (which returns a plain list),
checks `"error" in stories` (element membership on a list — false, since the
elements are dicts), then calls `.get("content", [])` on that list, which
raises `AttributeError`; the outer handler converts it to an error dict. -/
def analyze_hackernews_trends_with_ai (o : Oracle) (topic : String) (count : Int)
    (analysis_type : String) : PyVal :=
  pyCatch (do
      let stories := search_hackernews o topic count
      let b ← pyInOp (.str ("error")) stories
      if b then pure stories
      else do
        let contents ← pyGetD stories ("content") (.list [])
        let items ← pyIterFor contents
        let story_content ← parseStoryItems o items
        if story_content.isEmpty then pure (errDict ("No valid stories found to analyze"))
        else do
          let lines ← buildSummaryLines (pyListTakeInt story_content count)
          let summary := String.intercalate ("\n") lines
          let ctx : PyVal := .dict
            [(("topic"), .str topic),
             (("analysis_type"), .str analysis_type),
             (("story_count"), .int (Int.ofNat story_content.length)),
             (("stories"), .list (pyListTakeInt story_content count)),
             (("source"), .str ("hackernews")),
             (("timestamp"), .str o.nowIso)]
          pure (create_sampling_request (analysisPromptText topic analysis_type summary)
            ctx 1500 (3 / 10) (some ("claude-3-sonnet")) (9 / 10) (1 / 5) (2 / 5)))
    (fun e => errDict (("Failed to analyze trends: ") ++ e.msg))

/-- The repo-data loop of `code_review_with_ai` over
`repo_info.get("content", [])` (breaks at the first successful parse). -/
def findRepoData (o : Oracle) : List PyVal → PyM (Option PyVal)
  | [] => pure Option.none
  | item :: rest => do
      let t ← pyGetD item ("type") PyVal.none
      if pyBeq t (.str ("text")) then do
        let txt ← pySubscr item ("text")
        match txt with
        | .str s =>
            match o.loads s with
            | .ok rd => pure (some rd)
            | .error (.jsonDecodeError _) => findRepoData o rest
            | .error e => throw e
        | _ => throw (.typeError ("the JSON object must be str"))
      else findRepoData o rest

/-- `", ".join(v)`: iterates and requires every item to be a string. -/
def strsOf : List PyVal → PyM (List String)
  | [] => pure []
  | .str s :: rest => do
      let tail ← strsOf rest
      pure (s :: tail)
  | _ :: _ => throw (.typeError ("sequence item: expected str instance"))

/-- `", ".join(repo_data.get("topics", []))`. -/
def pyJoinStrs (v : PyVal) : PyM String := do
  let elems ← pyIterFor v
  let ss ← strsOf elems
  pure (String.intercalate (", ") ss)

/-- The repository-context block of the review prompt. -/
def repoContextText (rd : PyVal) : PyM String := do
  let name ← pyGetD rd ("name") PyVal.none
  let desc ← pyGetD rd ("description") (.str ("No description"))
  let lang ← pyGetD rd ("language") (.str ("Unknown"))
  let stars ← pyGetD rd ("stars") (.int 0)
  let forks ← pyGetD rd ("forks") (.int 0)
  let upd ← pyGetD rd ("updated_at") (.str ("Unknown"))
  let topics ← pyGetD rd ("topics") (.list [])
  let topicsStr ← pyJoinStrs topics
  pure (("Repository: ") ++ pyStrOf name ++ ("\nDescription: ") ++ pyStrOf desc ++
        ("\nLanguage: ") ++ pyStrOf lang ++ ("\nStars: ") ++ pyStrOf stars ++
        ("\nForks: ") ++ pyStrOf forks ++ ("\nLast updated: ") ++ pyStrOf upd ++
        ("\nTopics: ") ++ topicsStr)

/-- The review prompt text (long fixed literal condensed; the path is
unreachable because `repo_data` is always `None`). -/
def reviewPromptText (review_focus ctx : String) : String :=
  ("Please provide a ") ++ review_focus ++
  (" code review analysis for this GitHub repository:\n\n") ++ ctx ++
  ("\n\nBased on the repository metadata, provide insights and recommendations.")

/-- `code_review_with_ai(repo_owner, repo_name, review_focus)`: fetches repo
info (a dict), returns it directly when it embeds an error; otherwise reads
the `"content"` list the info dict never has, leaving `repo_data` `None` and
returning the fixed error dict. -/
def code_review_with_ai (o : Oracle) (repo_owner repo_name review_focus : String) : PyVal :=
  pyCatch (do
      let repo_info := get_github_repo_info o repo_owner repo_name
      let b ← pyInOp (.str ("error")) repo_info
      if b then pure repo_info
      else do
        let contents ← pyGetD repo_info ("content") (.list [])
        let items ← pyIterFor contents
        let repo_data ← findRepoData o items
        let bad ←
          match repo_data with
          | Option.none => pure true
          | some rd =>
              if pyTruthy rd then pyInOp (.str ("error")) rd
              else pure true
        if bad then pure (errDict ("Could not retrieve repository information"))
        else
          match repo_data with
          | some rd => do
              let ctx ← repoContextText rd
              let cd : PyVal := .dict
                [(("repository"), .str (repo_owner ++ ("/") ++ repo_name)),
                 (("review_focus"), .str review_focus),
                 (("repo_metadata"), rd),
                 (("source"), .str ("github")),
                 (("timestamp"), .str o.nowIso)]
              pure (create_sampling_request (reviewPromptText review_focus ctx) cd
                1200 (2 / 5) (some ("claude-3-sonnet")) (19 / 20) (1 / 10) (3 / 10))
          | Option.none => pure (errDict ("Could not retrieve repository information")))
    (fun e => errDict (("Failed to prepare code review: ") ++ e.msg))

/-- The four JSON-RPC methods the spec lists for the request phase. -/
def allowedMethods : List String :=
  [("tools/list"), ("tools/call"), ("resources/read"), ("prompts/get")]

/-- A concrete offline oracle used in witness instantiations: every HTTP
request raises, every JSON decode fails, randomness and clock are constant. -/
def oracleZ : Oracle :=
  { get := fun _ => .error (.exception ("offline")),
    pick := fun _ => 0,
    uniform := fun _ => 0,
    gauss := fun _ => 0,
    nowIso := ("T0"),
    isoAt := fun _ => ("T0"),
    dateOffset := fun _ => ("2020-01-01"),
    loads := fun _ => .error (.jsonDecodeError ("invalid")) }

/-- `v` is a Python dict. -/
def isDictB : PyVal → Bool
  | .dict _ => true
  | _ => false

/-- `v` is a list all of whose elements are dicts (the shape of every value
the list-returning fetch handlers produce, on success and on error alike). -/
def listOfDictsB : PyVal → Bool
  | .list xs => xs.all isDictB
  | _ => false

/-- `v` is a dict carrying an `"error"` string. -/
def dictHasErrorStr : PyVal → Bool
  | .dict kvs =>
      match kvs.lookup ("error") with
      | some (.str _) => true
      | _ => false
  | _ => false

/-- The structured error shapes of the claims: a dict with an `"error"`
string, or a one-element list of such a dict. -/
def errorEmbeddedB : PyVal → Bool
  | .list [d] => dictHasErrorStr d
  | v => dictHasErrorStr v

/-! # Theorems -/

/-! ## C3: SSE body parsing -/

theorem splitLines_exists_head (cs : List Char) :
    ∃ l ls, splitLines cs = l :: ls ∧ l <+: cs := by
  induction cs with
  | nil => exact ⟨[], [], rfl, List.nil_prefix⟩
  | cons c cs ih =>
      by_cases h : c = '\n'
      · subst h
        exact ⟨[], splitLines cs, by simp [splitLines], List.nil_prefix⟩
      · obtain ⟨l, ls, heq, hp⟩ := ih
        refine ⟨c :: l, ls, ?_, List.cons_prefix_cons.mpr ⟨rfl, hp⟩⟩
        simp [splitLines, h, heq]

theorem mem_splitLines_infixOf (cs : List Char) (l : List Char) (h : l ∈ splitLines cs) :
    l <:+: cs := by
  induction cs generalizing l with
  | nil =>
      simp [splitLines] at h
      subst h
      exact List.nil_infix
  | cons c cs ih =>
      by_cases hc : c = '\n'
      · subst hc
        simp [splitLines] at h
        rcases h with h | h
        · subst h
          exact List.nil_infix
        · exact List.infix_cons (ih l h)
      · obtain ⟨l0, ls, heq, hp⟩ := splitLines_exists_head cs
        rw [show splitLines (c :: cs) = (c :: l0) :: ls by simp [splitLines, hc, heq]] at h
        rcases List.mem_cons.mp h with h | h
        · subst h
          exact (List.cons_prefix_cons.mpr ⟨rfl, hp⟩).isInfix
        · exact List.infix_cons (ih l (by rw [heq]; exact List.mem_cons_of_mem _ h))

theorem infix_containsSub (pat s : List Char) (h : pat <:+: s) :
    containsSub pat s = true := by
  induction s with
  | nil =>
      rw [List.infix_nil] at h
      subst h
      rfl
  | cons c cs ih =>
      rcases List.infix_cons_iff.mp h with h | h
      · simp [containsSub, List.isPrefixOf_iff_prefix, h]
      · simp [containsSub, ih h]

theorem firstDataLine_none (dec : List Char → Option PyVal) (lines : List (List Char))
    (h : ∀ l ∈ lines, dataPrefix.isPrefixOf l = false) :
    firstDataLine dec lines = Option.none := by
  induction lines with
  | nil => rfl
  | cons l ls ih =>
      have hl := h l (List.mem_cons_self l ls)
      simp only [firstDataLine, hl, Bool.false_eq_true, if_false]
      exact ih (fun x hx => h x (List.mem_cons_of_mem _ hx))

theorem no_containsSub_firstDataLine (dec : List Char → Option PyVal) (s : List Char)
    (h : containsSub dataPrefix s = false) :
    firstDataLine dec (splitLines s) = Option.none := by
  refine firstDataLine_none dec _ (fun l hl => ?_)
  by_contra hne
  have htrue : dataPrefix.isPrefixOf l = true := by
    cases hb : dataPrefix.isPrefixOf l
    · exact absurd hb hne
    · rfl
  have hinf : dataPrefix <:+: s :=
    ((List.isPrefixOf_iff_prefix.mp htrue).isInfix).trans (mem_splitLines_infixOf s l hl)
  rw [infix_containsSub dataPrefix s hinf] at h
  cases h

/-- C3 (corrected claim): `_parse_sse_response` equals the claimed
first-decodable-`data: `-line rule applied to the *stripped* body: the code
strips leading/trailing whitespace before splitting, and the redundant
`"data: " in content` guard never changes the result. -/
theorem parse_sse_response_eq_claimed_on_stripped
    (dec : List Char → Option PyVal) (content : List Char) :
    parse_sse_response dec content = claimedParseSSE dec (pyStripChars content) := by
  unfold parse_sse_response claimedParseSSE
  by_cases h : containsSub dataPrefix (pyStripChars content) = true
  · simp [h]
  · have h' : containsSub dataPrefix (pyStripChars content) = false := by
      cases hb : containsSub dataPrefix (pyStripChars content)
      · rfl
      · exact absurd hb h
    simp only [h', Bool.false_eq_true, if_false]
    exact (no_containsSub_firstDataLine dec _ h').symm

/-- C3 counterexample: on the body `" data: 1"` the code strips the leading
space and decodes `1`, while the claim's rule on the raw body finds no line
starting with `"data: "` and yields `None`. -/
theorem parse_sse_response_counterexample :
    parse_sse_response jsonNumDec ((" data: 1").toList) = some (.int 1) ∧
    claimedParseSSE jsonNumDec ((" data: 1").toList) = Option.none := by
  exact ⟨rfl, rfl⟩

/-! ## C1: `create_sampling_request` -/

/-- C1: for every prompt and priorities within `[0, 1]` (and any context
data, token budget, temperature and model hint), `create_sampling_request`
returns a dict whose `sampling_request` member is a `sampling/createMessage`
message whose params hold exactly one user text message carrying the prompt
(with the dumped context data appended when context data is given and
nonempty), the given `maxTokens` and `temperature`, the model preferences
built from the three priorities (plus a `hints` entry when a nonempty
`model_hint` is given), and `includeContext = "thisServer"`; the top-level
`status` is `"ready_for_client"`.  The function consults no oracle: it
performs no network I/O. -/
theorem create_sampling_request_correct
    (p : String) (cd : PyVal) (mt : Int) (temp : ℚ) (mh : Option String)
    (ip cp sp : ℚ)
    (hip : 0 ≤ ip ∧ ip ≤ 1) (hcp : 0 ≤ cp ∧ cp ≤ 1) (hsp : 0 ≤ sp ∧ sp ≤ 1) :
    let r := create_sampling_request p cd mt temp mh ip cp sp
    let sr := dLook r ("sampling_request")
    let pr := sr.bind (fun v => dLook v ("params"))
    dLook r ("status") = some (.str ("ready_for_client")) ∧
    sr.bind (fun v => dLook v ("method")) = some (.str ("sampling/createMessage")) ∧
    pr.bind (fun v => dLook v ("maxTokens")) = some (.int mt) ∧
    pr.bind (fun v => dLook v ("temperature")) = some (.float temp) ∧
    pr.bind (fun v => dLook v ("includeContext")) = some (.str ("thisServer")) ∧
    pr.bind (fun v => dLook v ("modelPreferences")) = some (.dict (modelPrefs mh ip cp sp)) ∧
    (∃ content,
      pr.bind (fun v => dLook v ("messages")) =
        some (.list [.dict [(("role"), .str ("user")), (("content"), content)]]) ∧
      dLook content ("type") = some (.str ("text")) ∧
      dLook content ("text") = some (.str
        (if pyTruthy cd then p ++ ("\n\nContext data: ") ++ pyDumps cd else p))) := by
  intro r sr pr
  have e1 : ¬¬(0 ≤ ip ∧ ip ≤ 1) := not_not_intro hip
  have e2 : ¬¬(0 ≤ cp ∧ cp ≤ 1) := not_not_intro hcp
  have e3 : ¬¬(0 ≤ sp ∧ sp ≤ 1) := not_not_intro hsp
  show _ ∧ _
  simp only [r, sr, pr, create_sampling_request, e1, e2, e3, if_neg, if_false, not_false_iff]
  cases hctx : pyTruthy cd <;>
    simp [dLook, List.lookup, hctx]

/-- Concrete instantiation of `create_sampling_request_correct`. -/
theorem create_sampling_request_correct_witness :
    ((0 : ℚ) ≤ 4 / 5 ∧ (4 / 5 : ℚ) ≤ 1) ∧
    ((0 : ℚ) ≤ 3 / 10 ∧ (3 / 10 : ℚ) ≤ 1) ∧
    ((0 : ℚ) ≤ 1 / 2 ∧ (1 / 2 : ℚ) ≤ 1) ∧
    dLook (create_sampling_request ("hello") PyVal.none 1000 (7 / 10) Option.none
        (4 / 5) (3 / 10) (1 / 2)) ("status") = some (.str ("ready_for_client")) :=
  ⟨by norm_num, by norm_num, by norm_num,
    (create_sampling_request_correct ("hello") PyVal.none 1000 (7 / 10) Option.none
      (4 / 5) (3 / 10) (1 / 2) (by norm_num) (by norm_num) (by norm_num)).1⟩

/-! ## C5 / C8: client request methods and the session invariant -/

theorem make_request_method (st : ClientState) (reqId method : String)
    (params : Option PyVal) (rq : SentRequest)
    (h : make_request st reqId method params = some rq) :
    rq.payload.method = method := by
  unfold make_request at h
  cases hs : st.sessionId with
  | none => rw [hs] at h; cases h
  | some sid =>
      rw [hs] at h
      by_cases he : sid = ("")
      · simp [he] at h
      · simp [he] at h
        subst h
        rfl

theorem make_request_header (st : ClientState) (reqId method : String)
    (params : Option PyVal) (rq : SentRequest)
    (h : make_request st reqId method params = some rq) :
    st.sessionId = some rq.headerSessionId := by
  unfold make_request at h
  cases hs : st.sessionId with
  | none => rw [hs] at h; cases h
  | some sid =>
      rw [hs] at h
      by_cases he : sid = ("")
      · simp [he] at h
      · simp [he] at h
        subst h
        rfl

theorem make_request_unset (st : ClientState) (reqId method : String)
    (params : Option PyVal)
    (h : st.sessionId = Option.none ∨ st.sessionId = some ("")) :
    make_request st reqId method params = Option.none := by
  rcases h with h | h <;> simp [make_request, h]

/-- C5 counterexample: `list_resources` issues the method `resources/list`,
which is not one of `tools/list`, `tools/call`, `resources/read`,
`prompts/get`. -/
theorem list_resources_method_counterexample :
    ((list_resources ⟨some ("s")⟩ ("id0")).2.map
        (fun rq => rq.payload.method)) = some ("resources/list") ∧
    ("resources/list") ∉ allowedMethods := by
  refine ⟨rfl, ?_⟩
  decide

/-- C5 (corrected claim): every post-handshake client operation except
`list_resources` issues one of the four documented methods (`list_tools` via
`tools/list`; `call_tool`, `list_prompts` and `list_roots` via `tools/call`;
`get_resource` and `read_root` via `resources/read`; `get_prompt` via
`prompts/get`), while `list_resources` issues `resources/list`, outside that
set. -/
theorem client_methods_amended (st : ClientState) (reqId name uri pname : String)
    (args : PyVal) :
    (∀ rq, (list_tools st reqId).2 = some rq → rq.payload.method ∈ allowedMethods) ∧
    (∀ rq, (call_tool st reqId name args).2 = some rq → rq.payload.method ∈ allowedMethods) ∧
    (∀ rq, (list_prompts st reqId).2 = some rq → rq.payload.method ∈ allowedMethods) ∧
    (∀ rq, (list_roots st reqId).2 = some rq → rq.payload.method ∈ allowedMethods) ∧
    (∀ rq, (get_resource st reqId uri).2 = some rq → rq.payload.method ∈ allowedMethods) ∧
    (∀ rq, (read_root st reqId uri).2 = some rq → rq.payload.method ∈ allowedMethods) ∧
    (∀ rq, (get_prompt st reqId pname args).2 = some rq → rq.payload.method ∈ allowedMethods) ∧
    (∀ rq, (list_resources st reqId).2 = some rq →
        rq.payload.method = ("resources/list") ∧ rq.payload.method ∉ allowedMethods) := by
  refine ⟨?_, ?_, ?_, ?_, ?_, ?_, ?_, ?_⟩ <;> intro rq h
  · rw [make_request_method st reqId _ _ rq h]; decide
  · rw [make_request_method st reqId _ _ rq h]; decide
  · rw [make_request_method st reqId _ _ rq h]; decide
  · rw [make_request_method st reqId _ _ rq h]; decide
  · rw [make_request_method st reqId _ _ rq h]; decide
  · rw [make_request_method st reqId _ _ rq h]; decide
  · rw [make_request_method st reqId _ _ rq h]; decide
  · rw [make_request_method st reqId _ _ rq h]
    exact ⟨rfl, by decide⟩

/-- Concrete instantiation of `client_methods_amended`. -/
theorem client_methods_amended_witness :
    (SentRequest.payload
        ⟨("s"), requestPayload ("id1") ("tools/list") Option.none⟩).method ∈
      allowedMethods :=
  (client_methods_amended ⟨some ("s")⟩ ("id1") ("t") ("u") ("p")
    PyVal.none).1 _ rfl

theorem initAttempt_ok_conditions (dec : List Char → Option PyVal)
    (resp : HttpResponse) (si : PyVal) (sid : String)
    (h : initAttempt dec resp = .ok (si, sid)) :
    resp.status = 200 ∧ (parse_sse_response dec resp.body).isSome = true ∧
    resp.sessionHeader = some sid ∧ sid ≠ ("") := by
  unfold initAttempt at h
  by_cases h200 : resp.status = 200
  · rw [if_pos h200] at h
    cases hp : parse_sse_response dec resp.body with
    | none => rw [hp] at h; simp [throw, throwThe, MonadExceptOf.throw] at h
    | some r =>
        rw [hp] at h
        simp only [bind, Except.bind] at h
        cases hb : condResultOk r with
        | error e => rw [hb] at h; cases h
        | ok b =>
            rw [hb] at h
            cases b with
            | false => simp [throw, throwThe, MonadExceptOf.throw] at h
            | true =>
                simp only [if_true] at h
                cases hg : pyGetD r ("result") (.dict []) with
                | error e => rw [hg] at h; cases h
                | ok si2 =>
                    simp only [hg] at h
                    cases hh : resp.sessionHeader with
                    | none =>
                        simp only [hh] at h
                        simp [throw, throwThe, MonadExceptOf.throw] at h
                    | some sid2 =>
                        simp only [hh] at h
                        by_cases he : sid2 = ("")
                        · simp [he, throw, throwThe, MonadExceptOf.throw] at h
                        · simp only [he, if_false, pure, Except.pure, Except.ok.injEq,
                            Prod.mk.injEq] at h
                          refine ⟨h200, rfl, ?_, h.2 ▸ he⟩
                          rw [h.2]
  · rw [if_neg h200] at h
    simp [throw, throwThe, MonadExceptOf.throw] at h

/-- C4: the `notifications/initialized` notification is sent only when the
`initialize` POST returned HTTP 200, its SSE body parsed, and a nonempty
`mcp-session-id` header was present; whenever any of these fails, the
notification is never sent and the client exits (`sys.exit(1)`) instead of
entering the request phase. -/
theorem handshake_order (dec : List Char → Option PyVal) (resp : HttpResponse) :
    ((clientInit dec resp).2 = true →
        resp.status = 200 ∧ (parse_sse_response dec resp.body).isSome = true ∧
        ∃ sid, resp.sessionHeader = some sid ∧ sid ≠ ("")) ∧
    ((¬ resp.status = 200 ∨ parse_sse_response dec resp.body = Option.none ∨
        resp.sessionHeader = Option.none ∨ resp.sessionHeader = some ("")) →
        clientInit dec resp = (InitResult.exited, false)) := by
  constructor
  · intro hsent
    unfold clientInit at hsent
    cases hi : initAttempt dec resp with
    | error e => rw [hi] at hsent; cases hsent
    | ok pr =>
        obtain ⟨si, sid⟩ := pr
        obtain ⟨h1, h2, h3, h4⟩ := initAttempt_ok_conditions dec resp si sid hi
        exact ⟨h1, h2, sid, h3, h4⟩
  · intro hfail
    unfold clientInit
    cases hi : initAttempt dec resp with
    | error e => rfl
    | ok pr =>
        obtain ⟨si, sid⟩ := pr
        obtain ⟨h1, h2, h3, h4⟩ := initAttempt_ok_conditions dec resp si sid hi
        rcases hfail with hf | hf | hf | hf
        · exact absurd h1 hf
        · rw [hf] at h2; cases h2
        · rw [hf] at h3; cases h3
        · rw [hf] at h3
          cases h3
          exact absurd rfl h4

/-- Concrete instantiation of `handshake_order`: a 404 initialize response
means no notification and an exit. -/
theorem handshake_order_witness :
    clientInit (fun _ => Option.none) ⟨404, Option.none, []⟩ =
      (InitResult.exited, false) :=
  (handshake_order (fun _ => Option.none) ⟨404, Option.none, []⟩).2
    (Or.inl (by decide))

/-- C8: the client session invariant.  (1) A successful `_initialize` stores
exactly the `mcp-session-id` header value as the session id (and it is
nonempty); (2) no request-phase operation modifies the client state, so the
session id is never reassigned after initialization; (3) every request
`_make_request` issues carries the stored session id in its `MCP-Session-ID`
header; (4) with an unset (falsy) session id, `_make_request` raises and
issues no request. -/
theorem single_session_invariant (dec : List Char → Option PyVal)
    (resp : HttpResponse) (st : ClientState)
    (reqId method name uri : String) (params : Option PyVal) (args : PyVal) :
    (∀ si sid, clientInit dec resp = (InitResult.ready si sid, true) →
        resp.sessionHeader = some sid ∧ sid ≠ ("")) ∧
    ((list_tools st reqId).1 = st ∧ (list_resources st reqId).1 = st ∧
     (list_prompts st reqId).1 = st ∧ (call_tool st reqId name args).1 = st ∧
     (get_resource st reqId uri).1 = st ∧ (read_root st reqId uri).1 = st ∧
     (get_prompt st reqId name args).1 = st ∧ (list_roots st reqId).1 = st) ∧
    (∀ rq, make_request st reqId method params = some rq →
        st.sessionId = some rq.headerSessionId) ∧
    ((st.sessionId = Option.none ∨ st.sessionId = some ("")) →
        make_request st reqId method params = Option.none) := by
  refine ⟨?_, ⟨rfl, rfl, rfl, rfl, rfl, rfl, rfl, rfl⟩, ?_, ?_⟩
  · intro si sid h
    unfold clientInit at h
    cases hi : initAttempt dec resp with
    | error e => rw [hi] at h; cases h
    | ok pr =>
        obtain ⟨si2, sid2⟩ := pr
        rw [hi] at h
        simp only [Prod.mk.injEq, InitResult.ready.injEq, and_true] at h
        obtain ⟨hsi, hsid⟩ := h
        obtain ⟨-, -, h3, h4⟩ := initAttempt_ok_conditions dec resp si2 sid2 hi
        subst hsid
        exact ⟨h3, h4⟩
  · exact fun rq h => make_request_header st reqId method params rq h
  · exact fun h => make_request_unset st reqId method params h

/-- Concrete instantiation of `single_session_invariant`: with no session id
no request is issued. -/
theorem single_session_invariant_witness :
    make_request ⟨Option.none⟩ ("i") ("tools/list") Option.none =
      Option.none :=
  (single_session_invariant (fun _ => Option.none) ⟨200, Option.none, []⟩
    ⟨Option.none⟩ ("i") ("tools/list") ("n") ("u") Option.none
    PyVal.none).2.2.2 (Or.inl rfl)

/-! ## C10: `get_sampling_data` -/

theorem get_sampling_data_success (o : Oracle) (st ns : String) (n : Int)
    (hn : pyParseInt ns = some n) (hpos : 0 < n) (hle : n ≤ 1000)
    (hst : st = ("random") ∨ st = ("sequential") ∨ st = ("distribution")) :
    ∃ samples, get_sampling_data o st ns = mkSamplingResult o st n samples ∧
      samples.length = n.toNat ∧
      (st = ("sequential") → samples = (List.range n.toNat).map (seqSample o)) := by
  unfold get_sampling_data
  rw [hn]
  simp only []
  rw [if_neg (not_or.mpr ⟨not_le.mpr hpos, not_lt.mpr hle⟩)]
  rcases hst with h | h | h
  · refine ⟨randomSamples o n, by rw [if_pos h], by simp [randomSamples], ?_⟩
    intro hseq
    rw [h] at hseq
    exact absurd hseq (by decide)
  · rw [h]
    refine ⟨sequentialSamples o n, ?_, by simp [sequentialSamples], fun _ => rfl⟩
    rw [if_neg (by decide), if_pos rfl]
  · rw [h]
    refine ⟨distributionSamples o n, ?_, by simp [distributionSamples], ?_⟩
    · rw [if_neg (by decide), if_neg (by decide), if_pos rfl]
    · intro hseq
      exact absurd hseq (by decide)

theorem get_sampling_data_error (o : Oracle) (st ns : String)
    (h : ¬ ∃ n, pyParseInt ns = some n ∧ 0 < n ∧ n ≤ 1000 ∧
        (st = ("random") ∨ st = ("sequential") ∨ st = ("distribution"))) :
    ∃ m, get_sampling_data o st ns = errDict m := by
  unfold get_sampling_data
  cases hp : pyParseInt ns with
  | none => exact ⟨_, rfl⟩
  | some n =>
      simp only []
      by_cases hr : n ≤ 0 ∨ 1000 < n
      · rw [if_pos hr]
        exact ⟨_, rfl⟩
      · have hst : ¬(st = ("random") ∨ st = ("sequential") ∨ st = ("distribution")) := by
          intro hs
          exact h ⟨n, hp, by omega, by omega, hs⟩
        rw [if_neg hr, if_neg (fun he => hst (Or.inl he)),
          if_neg (fun he => hst (Or.inr (Or.inl he))),
          if_neg (fun he => hst (Or.inr (Or.inr he)))]
        exact ⟨_, rfl⟩

/-- C10: `get_sampling_data` yields a dict containing `"error"` exactly when
`num_samples` fails to parse as an int, parses out of `(0, 1000]`, or the
sampling type is unknown; otherwise `requested_samples` and `actual_samples`
both equal the parsed `n`, `samples` has exactly `n` entries, and in the
deterministic `"sequential"` case entry `i` has id `i+1`, value `i*2.5`, and
status `"active"` exactly for even `i`. -/
theorem get_sampling_data_correct (o : Oracle) (st ns : String) :
    ((dLook (get_sampling_data o st ns) ("error")).isSome = true ↔
      ¬ ∃ n, pyParseInt ns = some n ∧ 0 < n ∧ n ≤ 1000 ∧
        (st = ("random") ∨ st = ("sequential") ∨ st = ("distribution"))) ∧
    (∀ n, pyParseInt ns = some n → 0 < n → n ≤ 1000 →
      (st = ("random") ∨ st = ("sequential") ∨ st = ("distribution")) →
      dLook (get_sampling_data o st ns) ("requested_samples") = some (.int n) ∧
      dLook (get_sampling_data o st ns) ("actual_samples") = some (.int n) ∧
      ∃ xs, dLook (get_sampling_data o st ns) ("samples") = some (.list xs) ∧
        xs.length = n.toNat) ∧
    (∀ n, pyParseInt ns = some n → 0 < n → n ≤ 1000 → st = ("sequential") →
      ∃ xs, dLook (get_sampling_data o st ns) ("samples") = some (.list xs) ∧
        xs.length = n.toNat ∧
        ∀ i, (hi : i < xs.length) →
          dLook (xs.get ⟨i, hi⟩) ("id") = some (.int (Int.ofNat i + 1)) ∧
          dLook (xs.get ⟨i, hi⟩) ("value") = some (.float ((i : ℚ) * (5 / 2))) ∧
          ((dLook (xs.get ⟨i, hi⟩) ("status") = some (.str ("active"))) ↔ i % 2 = 0)) := by
  refine ⟨⟨?_, ?_⟩, ?_, ?_⟩
  · intro herr hA
    obtain ⟨n, hn, hpos, hle, hst⟩ := hA
    obtain ⟨samples, heq, -, -⟩ := get_sampling_data_success o st ns n hn hpos hle hst
    rw [heq] at herr
    simp [mkSamplingResult, dLook, List.lookup] at herr
  · intro hnA
    obtain ⟨m, hm⟩ := get_sampling_data_error o st ns hnA
    rw [hm]
    rfl
  · intro n hn hpos hle hst
    obtain ⟨samples, heq, hlen, -⟩ := get_sampling_data_success o st ns n hn hpos hle hst
    rw [heq]
    refine ⟨?_, ?_, samples, ?_, hlen⟩
    · simp [mkSamplingResult, dLook, List.lookup]
    · simp only [mkSamplingResult, dLook, List.lookup]
      simp [hlen, Int.toNat_of_nonneg hpos.le]
    · simp [mkSamplingResult, dLook, List.lookup]
  · intro n hn hpos hle hseq
    obtain ⟨samples, heq, hlen, hs⟩ := get_sampling_data_success o st ns n hn hpos hle
      (Or.inr (Or.inl hseq))
    rw [heq, hs hseq]
    refine ⟨(List.range n.toNat).map (seqSample o), ?_, by simp, ?_⟩
    · simp [mkSamplingResult, dLook, List.lookup]
    · intro i hi
      have hget : ((List.range n.toNat).map (seqSample o)).get ⟨i, hi⟩ =
          seqSample o i := by
        simp [List.get_eq_getElem]
      rw [hget]
      refine ⟨?_, ?_, ?_⟩
      · simp [seqSample, dLook, List.lookup]
      · simp [seqSample, dLook, List.lookup]
      · by_cases hpar : i % 2 = 0
        · simp [seqSample, dLook, List.lookup, hpar]
        · simp [seqSample, dLook, List.lookup, hpar]

/-- Concrete instantiation of `get_sampling_data_correct`: two sequential
samples. -/
theorem get_sampling_data_correct_witness :
    dLook (get_sampling_data oracleZ ("sequential") ("2")) ("requested_samples") =
      some (.int 2) :=
  ((get_sampling_data_correct oracleZ ("sequential") ("2")).2.1 2 rfl
    (by decide) (by decide) (Or.inr (Or.inl rfl))).1

/-! ## C7: `handle_sampling_request` -/

theorem pym_bind_shape {α : Type} (m : PyM α) (f : α → PyM PyVal)
    (hok : ∀ a, m = .ok a →
      (∃ e, f a = .error e) ∨ ∃ t, f a = .ok (simResponse t)) :
    (∃ e, m >>= f = .error e) ∨ ∃ t, m >>= f = .ok (simResponse t) := by
  cases m with
  | error e => exact Or.inl ⟨e, rfl⟩
  | ok a => exact hok a rfl

/-- C7 counterexample: with `sampling_request` bound to the integer `5`, the
function raises `AttributeError` on `request.get("params", {})` instead of
returning the simulated response the claim promises. -/
theorem handle_sampling_request_counterexample :
    handle_sampling_request [(("sampling_request"), PyVal.int 5)] =
      .error (.attributeError ("object has no attribute get")) := rfl

theorem handle_sampling_request_present_shape (d : List (String × PyVal)) (r : PyVal)
    (hr : d.lookup ("sampling_request") = some r) :
    (∃ e, handle_sampling_request d = .error e) ∨
    (∃ t, handle_sampling_request d = .ok (simResponse t)) := by
  unfold handle_sampling_request
  rw [hr]
  simp only []
  refine pym_bind_shape _ _ (fun a _ => ?_)
  refine pym_bind_shape _ _ (fun b _ => ?_)
  refine pym_bind_shape _ _ (fun c _ => ?_)
  refine pym_bind_shape _ _ (fun v _ => ?_)
  refine pym_bind_shape _ _ (fun w _ => ?_)
  refine pym_bind_shape _ _ (fun g _ => ?_)
  refine pym_bind_shape _ _ (fun x _ => ?_)
  refine pym_bind_shape _ _ (fun y _ => ?_)
  refine pym_bind_shape _ _ (fun z _ => ?_)
  refine pym_bind_shape _ _ (fun k _ => ?_)
  refine pym_bind_shape _ _ (fun u _ => ?_)
  refine pym_bind_shape _ _ (fun t _ => ?_)
  exact Or.inr ⟨t, rfl⟩

theorem textLenOf_wf (m : PyVal) (h : wfMsg m = true) :
    textLenOf m = .ok (claimedMsgTextLen m) := by
  cases m with
  | dict mkvs =>
      simp only [wfMsg] at h
      unfold textLenOf claimedMsgTextLen
      cases hc : mkvs.lookup ("content") with
      | none => simp [pyGetD, hc, pyLen, bind, Except.bind, pure, Except.pure]
      | some c =>
          rw [hc] at h
          cases c with
          | dict ckvs =>
              simp only [] at h
              cases ht : ckvs.lookup ("text") with
              | none =>
                  simp [pyGetD, hc, ht, pyLen, bind, Except.bind, pure, Except.pure]
              | some t =>
                  rw [ht] at h
                  cases t with
                  | str s =>
                      simp [pyGetD, hc, ht, pyLen, bind, Except.bind, pure, Except.pure]
                  | none => simp at h
                  | bool b => simp at h
                  | int n => simp at h
                  | float q => simp at h
                  | list xs => simp at h
                  | dict kvs => simp at h
          | none => simp at h
          | bool b => simp at h
          | int n => simp at h
          | float q => simp at h
          | str s => simp at h
          | list xs => simp at h
  | none => simp [wfMsg] at h
  | bool b => simp [wfMsg] at h
  | int n => simp [wfMsg] at h
  | float q => simp [wfMsg] at h
  | str s => simp [wfMsg] at h
  | list xs => simp [wfMsg] at h

theorem sumTextLens_wf (ms : List PyVal) (h : ∀ m ∈ ms, wfMsg m = true) :
    sumTextLens ms = .ok ((ms.map claimedMsgTextLen).sum) := by
  induction ms with
  | nil => rfl
  | cons m ms ih =>
      have h1 := h m (List.mem_cons_self m ms)
      have h2 := ih (fun x hx => h x (List.mem_cons_of_mem _ hx))
      simp only [sumTextLens, textLenOf_wf m h1, h2, bind, Except.bind, List.map_cons,
        List.sum_cons, pure, Except.pure]

theorem displayMsg_wf (m : PyVal) (h : wfMsg m = true) : displayMsg m = .ok () := by
  cases m with
  | dict mkvs =>
      simp only [wfMsg] at h
      unfold displayMsg
      cases hc : mkvs.lookup ("content") with
      | none => simp [pyGetD, hc, bind, Except.bind, pure, Except.pure]
      | some c =>
          rw [hc] at h
          cases c with
          | dict ckvs =>
              simp only [] at h
              cases ht : ckvs.lookup ("text") with
              | none => simp [pyGetD, hc, ht, bind, Except.bind, pure, Except.pure]
              | some t =>
                  rw [ht] at h
                  cases t with
                  | str s =>
                      by_cases hl : 200 < s.length
                      · simp [pyGetD, hc, ht, pyLen, pySliceTo, hl, bind,
                          Except.bind, pure, Except.pure]
                      · simp [pyGetD, hc, ht, pyLen, pySliceTo, hl, bind,
                          Except.bind, pure, Except.pure]
                  | none => simp at h
                  | bool b => simp at h
                  | int n => simp at h
                  | float q => simp at h
                  | list xs => simp at h
                  | dict kvs => simp at h
          | none => simp at h
          | bool b => simp at h
          | int n => simp at h
          | float q => simp at h
          | str s => simp at h
          | list xs => simp at h
  | none => simp [wfMsg] at h
  | bool b => simp [wfMsg] at h
  | int n => simp [wfMsg] at h
  | float q => simp [wfMsg] at h
  | str s => simp [wfMsg] at h
  | list xs => simp [wfMsg] at h

theorem displayMsgs_wf (ms : List PyVal) (h : ∀ m ∈ ms, wfMsg m = true) :
    displayMsgs ms = .ok () := by
  induction ms with
  | nil => rfl
  | cons m ms ih =>
      have h1 := displayMsg_wf m (h m (List.mem_cons_self m ms))
      have h2 := ih (fun x hx => h x (List.mem_cons_of_mem _ hx))
      simp only [displayMsgs, h1, h2, bind, Except.bind]

theorem handle_sampling_request_wf (d : List (String × PyVal)) (r : PyVal)
    (hr : d.lookup ("sampling_request") = some r)
    (hwf : wfSamplingRequest r = true) :
    handle_sampling_request d = .ok (simResponse (claimedTextSum r)) := by
  cases r with
  | dict rkvs =>
      unfold handle_sampling_request claimedTextSum
      rw [hr]
      simp only []
      simp only [wfSamplingRequest] at hwf
      cases hp : rkvs.lookup ("params") with
      | none =>
          simp [pyGetD, hp, pyLen, pyIterFor, displayMsgs, sumTextLens,
            bind, Except.bind, pure, Except.pure]
      | some pv =>
          rw [hp] at hwf
          cases pv with
          | dict pkvs =>
              simp only [] at hwf
              cases hm : pkvs.lookup ("messages") with
              | none =>
                  simp [pyGetD, hp, hm, pyLen, pyIterFor, displayMsgs, sumTextLens,
                    bind, Except.bind, pure, Except.pure]
              | some mv =>
                  rw [hm] at hwf
                  cases mv with
                  | list ms =>
                      have hAll : ∀ m ∈ ms, wfMsg m = true := by
                        intro m hmem
                        exact List.all_eq_true.mp hwf m hmem
                      simp [pyGetD, hp, hm, pyLen, pyIterFor,
                        displayMsgs_wf ms hAll, sumTextLens_wf ms hAll,
                        bind, Except.bind, pure, Except.pure]
                  | none => simp at hwf
                  | bool b => simp at hwf
                  | int n => simp at hwf
                  | float q => simp at hwf
                  | str s => simp at hwf
                  | dict kvs => simp at hwf
          | none => simp at hwf
          | bool b => simp at hwf
          | int n => simp at hwf
          | float q => simp at hwf
          | str s => simp at hwf
          | list xs => simp at hwf
  | none => simp [wfSamplingRequest] at hwf
  | bool b => simp [wfSamplingRequest] at hwf
  | int n => simp [wfSamplingRequest] at hwf
  | float q => simp [wfSamplingRequest] at hwf
  | str s => simp [wfSamplingRequest] at hwf
  | list xs => simp [wfSamplingRequest] at hwf

/-- C7 (corrected claim): `handle_sampling_request` returns
`{"error": "No sampling request found in response"}` exactly when the
`sampling_request` key is absent.  When the key is present, the outcome is
always either an uncaught exception or the fixed simulated assistant
response with model `simulated-claude-3-sonnet`, stopReason `endTurn` and 50
output tokens for some input-token count — never that error dict.  When the
key's value is moreover well-formed (its `params`, if any, is a dict, whose
`messages`, if any, is a list of message dicts with string text fields) no
exception occurs: the function returns, without contacting any LLM, exactly
the simulated response with input tokens equal to the summed content-text
lengths divided by 4.  (Some malformed values raise, as the counterexample
shows; others — e.g. a non-string text whose `len()` succeeds — still
return a simulated response.) -/
theorem handle_sampling_request_amended (d : List (String × PyVal)) :
    (d.lookup ("sampling_request") = Option.none →
        handle_sampling_request d =
          .ok (errDict ("No sampling request found in response"))) ∧
    (∀ r, d.lookup ("sampling_request") = some r →
        handle_sampling_request d ≠
          .ok (errDict ("No sampling request found in response"))) ∧
    (∀ r, d.lookup ("sampling_request") = some r → wfSamplingRequest r = true →
        handle_sampling_request d = .ok (simResponse (claimedTextSum r))) ∧
    (∀ r, d.lookup ("sampling_request") = some r →
        (∃ e, handle_sampling_request d = .error e) ∨
        (∃ t, handle_sampling_request d = .ok (simResponse t))) := by
  refine ⟨?_, ?_, ?_, ?_⟩
  · intro h
    unfold handle_sampling_request
    rw [h]
    rfl
  · intro r hr heq
    rcases handle_sampling_request_present_shape d r hr with ⟨e, he⟩ | ⟨t, ht⟩
    · rw [he] at heq
      cases heq
    · rw [ht] at heq
      simp [simResponse, errDict] at heq
  · exact fun r hr hwf => handle_sampling_request_wf d r hr hwf
  · exact fun r hr => handle_sampling_request_present_shape d r hr

/-- Concrete instantiation of `handle_sampling_request_amended`: a
well-formed request with one 8-character message yields the simulated
response. -/
theorem handle_sampling_request_amended_witness :
    handle_sampling_request
      [(("sampling_request"),
        PyVal.dict [(("params"),
          PyVal.dict [(("messages"),
            PyVal.list [PyVal.dict [(("content"),
              PyVal.dict [(("type"), PyVal.str ("text")),
                          (("text"), PyVal.str ("abcdefgh"))])]])])])] =
      .ok (simResponse 8) :=
  (handle_sampling_request_amended
      [(("sampling_request"),
        PyVal.dict [(("params"),
          PyVal.dict [(("messages"),
            PyVal.list [PyVal.dict [(("content"),
              PyVal.dict [(("type"), PyVal.str ("text")),
                          (("text"), PyVal.str ("abcdefgh"))])]])])])]).2.2.1
    (PyVal.dict [(("params"),
       PyVal.dict [(("messages"),
         PyVal.list [PyVal.dict [(("content"),
           PyVal.dict [(("type"), PyVal.str ("text")),
                       (("text"), PyVal.str ("abcdefgh"))])]])])]) rfl rfl

/-! ## Shared helper lemmas for the handler bodies (C2, C6, C9) -/

theorem pym_bind_ok {α β : Type} (m : PyM α) (f : α → PyM β) (b : β)
    (h : (m >>= f) = .ok b) : ∃ a, m = .ok a ∧ f a = .ok b := by
  cases m with
  | error e => exact absurd h (by simp [bind, Except.bind])
  | ok a => exact ⟨a, rfl, h⟩

theorem mkTopStory_dict (sid sd v : PyVal) (h : mkTopStory sid sd = .ok v) :
    isDictB v = true := by
  unfold mkTopStory at h
  obtain ⟨a1, -, h⟩ := pym_bind_ok _ _ _ h
  obtain ⟨a2, -, h⟩ := pym_bind_ok _ _ _ h
  obtain ⟨a3, -, h⟩ := pym_bind_ok _ _ _ h
  obtain ⟨a4, -, h⟩ := pym_bind_ok _ _ _ h
  obtain ⟨a5, -, h⟩ := pym_bind_ok _ _ _ h
  obtain ⟨a6, -, h⟩ := pym_bind_ok _ _ _ h
  obtain ⟨a7, -, h⟩ := pym_bind_ok _ _ _ h
  cases h
  rfl

theorem mkSearchStory_dict (sid sd v : PyVal) (h : mkSearchStory sid sd = .ok v) :
    isDictB v = true := by
  unfold mkSearchStory at h
  obtain ⟨a1, -, h⟩ := pym_bind_ok _ _ _ h
  obtain ⟨a2, -, h⟩ := pym_bind_ok _ _ _ h
  obtain ⟨a3, -, h⟩ := pym_bind_ok _ _ _ h
  obtain ⟨a4, -, h⟩ := pym_bind_ok _ _ _ h
  obtain ⟨a5, -, h⟩ := pym_bind_ok _ _ _ h
  cases h
  rfl

theorem mkSampledStory_dict (sid sd v : PyVal) (h : mkSampledStory sid sd = .ok v) :
    isDictB v = true := by
  unfold mkSampledStory at h
  obtain ⟨a1, -, h⟩ := pym_bind_ok _ _ _ h
  obtain ⟨a2, -, h⟩ := pym_bind_ok _ _ _ h
  obtain ⟨a3, -, h⟩ := pym_bind_ok _ _ _ h
  obtain ⟨a4, -, h⟩ := pym_bind_ok _ _ _ h
  obtain ⟨a5, -, h⟩ := pym_bind_ok _ _ _ h
  obtain ⟨a6, -, h⟩ := pym_bind_ok _ _ _ h
  obtain ⟨a7, -, h⟩ := pym_bind_ok _ _ _ h
  cases h
  rfl

theorem mkTrendingRepo_dict (r v : PyVal) (h : mkTrendingRepo r = .ok v) :
    isDictB v = true := by
  unfold mkTrendingRepo at h
  obtain ⟨a1, -, h⟩ := pym_bind_ok _ _ _ h
  obtain ⟨a2, -, h⟩ := pym_bind_ok _ _ _ h
  obtain ⟨a3, -, h⟩ := pym_bind_ok _ _ _ h
  obtain ⟨a4, -, h⟩ := pym_bind_ok _ _ _ h
  obtain ⟨a5, -, h⟩ := pym_bind_ok _ _ _ h
  obtain ⟨a6, -, h⟩ := pym_bind_ok _ _ _ h
  cases h
  rfl

theorem mkSampledRepo_dict (r v : PyVal) (h : mkSampledRepo r = .ok v) :
    isDictB v = true := by
  unfold mkSampledRepo at h
  obtain ⟨a1, -, h⟩ := pym_bind_ok _ _ _ h
  obtain ⟨a2, -, h⟩ := pym_bind_ok _ _ _ h
  obtain ⟨a3, -, h⟩ := pym_bind_ok _ _ _ h
  obtain ⟨a4, -, h⟩ := pym_bind_ok _ _ _ h
  obtain ⟨a5, -, h⟩ := pym_bind_ok _ _ _ h
  obtain ⟨a6, -, h⟩ := pym_bind_ok _ _ _ h
  cases h
  rfl

theorem fetchTopStories_ok (o : Oracle) (elems : List PyVal) :
    ∀ (k : Nat) (xs : List PyVal), fetchTopStories o k elems = .ok xs →
      xs.length ≤ elems.length ∧ ∀ x ∈ xs, isDictB x = true := by
  induction elems with
  | nil =>
      intro k xs h
      simp only [fetchTopStories] at h
      cases h
      exact ⟨Nat.le_refl 0, by simp⟩
  | cons sid rest ih =>
      intro k xs h
      unfold fetchTopStories at h
      obtain ⟨r, -, h⟩ := pym_bind_ok _ _ _ h
      by_cases hs : r.status = 200
      · rw [if_pos hs] at h
        obtain ⟨sd, -, h⟩ := pym_bind_ok _ _ _ h
        obtain ⟨item, hitem, h⟩ := pym_bind_ok _ _ _ h
        obtain ⟨tail, htail, h⟩ := pym_bind_ok _ _ _ h
        cases h
        obtain ⟨hlen, hdicts⟩ := ih (k + 1) tail htail
        refine ⟨by simpa using Nat.succ_le_succ hlen, ?_⟩
        intro x hx
        rcases List.mem_cons.mp hx with hx | hx
        · subst hx
          exact mkTopStory_dict sid sd x hitem
        · exact hdicts x hx
      · rw [if_neg hs] at h
        obtain ⟨hlen, hdicts⟩ := ih (k + 1) xs h
        exact ⟨Nat.le_succ_of_le hlen, hdicts⟩

theorem fetchSampledStories_ok (o : Oracle) (elems : List PyVal) :
    ∀ (k : Nat) (xs : List PyVal), fetchSampledStories o k elems = .ok xs →
      xs.length ≤ elems.length ∧ ∀ x ∈ xs, isDictB x = true := by
  induction elems with
  | nil =>
      intro k xs h
      simp only [fetchSampledStories] at h
      cases h
      exact ⟨Nat.le_refl 0, by simp⟩
  | cons sid rest ih =>
      intro k xs h
      unfold fetchSampledStories at h
      obtain ⟨r, -, h⟩ := pym_bind_ok _ _ _ h
      by_cases hs : r.status = 200
      · rw [if_pos hs] at h
        obtain ⟨sd, -, h⟩ := pym_bind_ok _ _ _ h
        obtain ⟨item, hitem, h⟩ := pym_bind_ok _ _ _ h
        obtain ⟨tail, htail, h⟩ := pym_bind_ok _ _ _ h
        cases h
        obtain ⟨hlen, hdicts⟩ := ih (k + 1) tail htail
        refine ⟨by simpa using Nat.succ_le_succ hlen, ?_⟩
        intro x hx
        rcases List.mem_cons.mp hx with hx | hx
        · subst hx
          exact mkSampledStory_dict sid sd x hitem
        · exact hdicts x hx
      · rw [if_neg hs] at h
        obtain ⟨hlen, hdicts⟩ := ih (k + 1) xs h
        exact ⟨Nat.le_succ_of_le hlen, hdicts⟩

theorem searchLoop_ok (o : Oracle) (q : String) (limit : Nat) (elems : List PyVal) :
    ∀ (k cnt : Nat) (xs : List PyVal), searchLoop o q limit k cnt elems = .ok xs →
      xs.length ≤ limit - cnt ∧ ∀ x ∈ xs, isDictB x = true := by
  induction elems with
  | nil =>
      intro k cnt xs h
      simp only [searchLoop] at h
      cases h
      exact ⟨Nat.zero_le _, by simp⟩
  | cons sid rest ih =>
      intro k cnt xs h
      unfold searchLoop at h
      by_cases hcnt : limit ≤ cnt
      · rw [if_pos hcnt] at h
        cases h
        exact ⟨Nat.zero_le _, by simp⟩
      · rw [if_neg hcnt] at h
        obtain ⟨r, -, h⟩ := pym_bind_ok _ _ _ h
        by_cases hs : r.status = 200
        · rw [if_pos hs] at h
          obtain ⟨sd, -, h⟩ := pym_bind_ok _ _ _ h
          obtain ⟨title, -, h⟩ := pym_bind_ok _ _ _ h
          obtain ⟨tl, -, h⟩ := pym_bind_ok _ _ _ h
          by_cases hm : containsSub q.toLower.toList tl.toList = true
          · rw [if_pos hm] at h
            obtain ⟨item, hitem, h⟩ := pym_bind_ok _ _ _ h
            obtain ⟨tail, htail, h⟩ := pym_bind_ok _ _ _ h
            cases h
            obtain ⟨hlen, hdicts⟩ := ih (k + 1) (cnt + 1) tail htail
            refine ⟨by simp only [List.length_cons]; omega, ?_⟩
            intro x hx
            rcases List.mem_cons.mp hx with hx | hx
            · subst hx
              exact mkSearchStory_dict sid sd x hitem
            · exact hdicts x hx
          · rw [if_neg hm] at h
            exact ih (k + 1) cnt xs h
        · rw [if_neg hs] at h
          exact ih (k + 1) cnt xs h

theorem mapPyM_ok (f : PyVal → PyM PyVal)
    (hf : ∀ x v, f x = .ok v → isDictB v = true) (xs : List PyVal) :
    ∀ ys, mapPyM f xs = .ok ys →
      ys.length = xs.length ∧ ∀ y ∈ ys, isDictB y = true := by
  induction xs with
  | nil =>
      intro ys h
      simp only [mapPyM] at h
      cases h
      exact ⟨rfl, by simp⟩
  | cons x xs ih =>
      intro ys h
      unfold mapPyM at h
      obtain ⟨v, hv, h⟩ := pym_bind_ok _ _ _ h
      obtain ⟨tail, htail, h⟩ := pym_bind_ok _ _ _ h
      cases h
      obtain ⟨hlen, hdicts⟩ := ih tail htail
      refine ⟨by simp [hlen], ?_⟩
      intro y hy
      rcases List.mem_cons.mp hy with hy | hy
      · subst hy
        exact hf x y hv
      · exact hdicts y hy

theorem slice_iter_length (v w : PyVal) (n : Nat) (es : List PyVal)
    (hs : pySliceTo v n = .ok w) (hi : pyIterFor w = .ok es) : es.length ≤ n := by
  cases v with
  | list xs =>
      simp only [pySliceTo] at hs
      cases hs
      simp only [pyIterFor] at hi
      cases hi
      simp [List.length_take]
  | str s =>
      simp only [pySliceTo] at hs
      cases hs
      simp only [pyIterFor] at hi
      cases hi
      simp [List.length_take]
  | none => simp [pySliceTo, throw, throwThe, MonadExceptOf.throw] at hs
  | bool b => simp [pySliceTo, throw, throwThe, MonadExceptOf.throw] at hs
  | int n2 => simp [pySliceTo, throw, throwThe, MonadExceptOf.throw] at hs
  | float q => simp [pySliceTo, throw, throwThe, MonadExceptOf.throw] at hs
  | dict kvs => simp [pySliceTo, throw, throwThe, MonadExceptOf.throw] at hs

theorem len_iter_length (v : PyVal) (l : Nat) (es : List PyVal)
    (hl : pyLen v = .ok l) (hi : pyIterFor v = .ok es) : es.length = l := by
  cases v with
  | list xs =>
      simp only [pyLen] at hl
      cases hl
      simp only [pyIterFor] at hi
      cases hi
      rfl
  | str s =>
      simp only [pyLen] at hl
      cases hl
      simp only [pyIterFor] at hi
      cases hi
      simp only [List.length_map]
      rfl
  | dict kvs =>
      simp only [pyLen] at hl
      cases hl
      simp only [pyIterFor] at hi
      cases hi
      simp
  | none => simp [pyLen, throw, throwThe, MonadExceptOf.throw] at hl
  | bool b => simp [pyLen, throw, throwThe, MonadExceptOf.throw] at hl
  | int n => simp [pyLen, throw, throwThe, MonadExceptOf.throw] at hl
  | float q => simp [pyLen, throw, throwThe, MonadExceptOf.throw] at hl

theorem pySample_length (o : Oracle) (t : Nat) (pop : List PyVal) (k : Nat)
    (ys : List PyVal) (h : pySample o t pop k = .ok ys) : ys.length = k := by
  unfold pySample at h
  by_cases hk : k ≤ pop.length
  · rw [if_pos hk] at h
    cases h
    simp
  · rw [if_neg hk] at h
    exact absurd h (by simp [throw, throwThe, MonadExceptOf.throw])

theorem get_hn_top_stories_body_ok (o : Oracle) (limit : Int) (v : PyVal)
    (h : get_hn_top_stories_body o limit = .ok v) :
    ∃ xs, v = .list xs ∧ xs.length ≤ limit.toNat ∧ ∀ x ∈ xs, isDictB x = true := by
  unfold get_hn_top_stories_body at h
  obtain ⟨resp, -, h⟩ := pym_bind_ok _ _ _ h
  obtain ⟨u, -, h⟩ := pym_bind_ok _ _ _ h
  obtain ⟨ids, -, h⟩ := pym_bind_ok _ _ _ h
  obtain ⟨top, htop, h⟩ := pym_bind_ok _ _ _ h
  obtain ⟨elems, helems, h⟩ := pym_bind_ok _ _ _ h
  obtain ⟨stories, hstories, h⟩ := pym_bind_ok _ _ _ h
  cases h
  obtain ⟨hlen, hdict⟩ := fetchTopStories_ok o elems 1 stories hstories
  exact ⟨stories, rfl,
    le_trans hlen (slice_iter_length ids top limit.toNat elems htop helems), hdict⟩

theorem search_hackernews_body_ok (o : Oracle) (q : String) (limit : Int) (v : PyVal)
    (h : search_hackernews_body o q limit = .ok v) :
    ∃ xs, v = .list xs ∧ xs.length ≤ limit.toNat ∧ ∀ x ∈ xs, isDictB x = true := by
  unfold search_hackernews_body at h
  obtain ⟨resp, -, h⟩ := pym_bind_ok _ _ _ h
  obtain ⟨u, -, h⟩ := pym_bind_ok _ _ _ h
  obtain ⟨ids, -, h⟩ := pym_bind_ok _ _ _ h
  obtain ⟨ids100, -, h⟩ := pym_bind_ok _ _ _ h
  obtain ⟨elems, -, h⟩ := pym_bind_ok _ _ _ h
  obtain ⟨found, hfound, h⟩ := pym_bind_ok _ _ _ h
  cases h
  obtain ⟨hlen, hdict⟩ := searchLoop_ok o q limit.toNat elems 1 0 found hfound
  exact ⟨found, rfl, by omega, hdict⟩

theorem sample_hackernews_stories_body_ok (o : Oracle) (count : Int) (v : PyVal)
    (h : sample_hackernews_stories_body o count = .ok v) :
    ∃ xs, v = .list xs ∧ xs.length ≤ count.toNat ∧ ∀ x ∈ xs, isDictB x = true := by
  unfold sample_hackernews_stories_body at h
  obtain ⟨resp, -, h⟩ := pym_bind_ok _ _ _ h
  obtain ⟨u, -, h⟩ := pym_bind_ok _ _ _ h
  obtain ⟨ids, -, h⟩ := pym_bind_ok _ _ _ h
  obtain ⟨ids100, -, h⟩ := pym_bind_ok _ _ _ h
  obtain ⟨l, -, h⟩ := pym_bind_ok _ _ _ h
  obtain ⟨pop, -, h⟩ := pym_bind_ok _ _ _ h
  obtain ⟨sampled, hsampled, h⟩ := pym_bind_ok _ _ _ h
  obtain ⟨stories, hstories, h⟩ := pym_bind_ok _ _ _ h
  cases h
  obtain ⟨hlen, hdict⟩ := fetchSampledStories_ok o sampled 1 stories hstories
  have hslen := pySample_length o 0 pop (min count.toNat l) sampled hsampled
  refine ⟨stories, rfl, ?_, hdict⟩
  rw [hslen] at hlen
  omega

theorem sample_repositories_resource_body_ok (o : Oracle) (language : String)
    (count : Int) (v : PyVal)
    (h : sample_repositories_resource_body o language count = .ok v) :
    ∃ xs, v = .list xs ∧ xs.length ≤ count.toNat ∧ ∀ x ∈ xs, isDictB x = true := by
  unfold sample_repositories_resource_body at h
  obtain ⟨resp, -, h⟩ := pym_bind_ok _ _ _ h
  obtain ⟨u, -, h⟩ := pym_bind_ok _ _ _ h
  obtain ⟨data, -, h⟩ := pym_bind_ok _ _ _ h
  obtain ⟨repositories, -, h⟩ := pym_bind_ok _ _ _ h
  obtain ⟨l, hl, h⟩ := pym_bind_ok _ _ _ h
  by_cases hc : count.toNat < l
  · simp only [if_pos hc] at h
    obtain ⟨pop, -, h⟩ := pym_bind_ok _ _ _ h
    obtain ⟨sampled, hsampled, h⟩ := pym_bind_ok _ _ _ h
    obtain ⟨y, hy, h⟩ := pym_bind_ok _ _ _ h
    cases hy
    obtain ⟨elems, helems, h⟩ := pym_bind_ok _ _ _ h
    obtain ⟨out, hout, h⟩ := pym_bind_ok _ _ _ h
    cases h
    obtain ⟨holen, hodict⟩ := mapPyM_ok mkSampledRepo mkSampledRepo_dict elems out hout
    refine ⟨out, rfl, ?_, hodict⟩
    rw [holen]
    have := pySample_length o 0 pop count.toNat sampled hsampled
    simp only [pyIterFor] at helems
    cases helems
    omega
  · simp only [if_neg hc] at h
    obtain ⟨y, hy, h⟩ := pym_bind_ok _ _ _ h
    cases hy
    obtain ⟨elems, helems, h⟩ := pym_bind_ok _ _ _ h
    obtain ⟨out, hout, h⟩ := pym_bind_ok _ _ _ h
    cases h
    obtain ⟨holen, hodict⟩ := mapPyM_ok mkSampledRepo mkSampledRepo_dict elems out hout
    refine ⟨out, rfl, ?_, hodict⟩
    rw [holen]
    have := len_iter_length repositories l elems hl helems
    omega

theorem get_github_trending_body_ok (o : Oracle) (language since : String) (v : PyVal)
    (h : get_github_trending_body o language since = .ok v) :
    ∃ xs, v = .list xs ∧ ∀ x ∈ xs, isDictB x = true := by
  unfold get_github_trending_body at h
  obtain ⟨resp, -, h⟩ := pym_bind_ok _ _ _ h
  obtain ⟨u, -, h⟩ := pym_bind_ok _ _ _ h
  obtain ⟨data, -, h⟩ := pym_bind_ok _ _ _ h
  obtain ⟨items, -, h⟩ := pym_bind_ok _ _ _ h
  obtain ⟨elems, -, h⟩ := pym_bind_ok _ _ _ h
  obtain ⟨repos, hrepos, h⟩ := pym_bind_ok _ _ _ h
  cases h
  obtain ⟨-, hdict⟩ := mapPyM_ok mkTrendingRepo mkTrendingRepo_dict elems repos hrepos
  exact ⟨repos, rfl, hdict⟩

theorem get_github_repo_info_body_ok (o : Oracle) (owner repo : String) (v : PyVal)
    (h : get_github_repo_info_body o owner repo = .ok v) :
    ∃ kvs, v = .dict kvs ∧ kvs.lookup ("content") = Option.none ∧
      kvs.lookup ("error") = Option.none ∧
      kvs.any (fun kv => kv.1 == ("error")) = false := by
  unfold get_github_repo_info_body at h
  obtain ⟨resp, -, h⟩ := pym_bind_ok _ _ _ h
  obtain ⟨u, -, h⟩ := pym_bind_ok _ _ _ h
  obtain ⟨rd, -, h⟩ := pym_bind_ok _ _ _ h
  obtain ⟨a1, -, h⟩ := pym_bind_ok _ _ _ h
  obtain ⟨a2, -, h⟩ := pym_bind_ok _ _ _ h
  obtain ⟨a3, -, h⟩ := pym_bind_ok _ _ _ h
  obtain ⟨a4, -, h⟩ := pym_bind_ok _ _ _ h
  obtain ⟨a5, -, h⟩ := pym_bind_ok _ _ _ h
  obtain ⟨a6, -, h⟩ := pym_bind_ok _ _ _ h
  obtain ⟨a7, -, h⟩ := pym_bind_ok _ _ _ h
  obtain ⟨a8, -, h⟩ := pym_bind_ok _ _ _ h
  obtain ⟨a9, -, h⟩ := pym_bind_ok _ _ _ h
  obtain ⟨a10, -, h⟩ := pym_bind_ok _ _ _ h
  cases h
  exact ⟨_, rfl, rfl, rfl, rfl⟩

/-- The overall shape of `get_github_repo_info`: an error dict, or the
fixed-key success dict (which has neither `"content"` nor `"error"`). -/
theorem get_github_repo_info_shape (o : Oracle) (owner repo : String) :
    (∃ m, get_github_repo_info o owner repo = errDict m) ∨
    (∃ kvs, get_github_repo_info o owner repo = .dict kvs ∧
      kvs.lookup ("content") = Option.none ∧ kvs.lookup ("error") = Option.none ∧
      kvs.any (fun kv => kv.1 == ("error")) = false) := by
  unfold get_github_repo_info
  cases hb : get_github_repo_info_body o owner repo with
  | error e =>
      exact Or.inl ⟨(("Failed to fetch repository info: ") ++ e.msg),
        by simp [pyCatch, hb, errDict]⟩
  | ok v =>
      obtain ⟨kvs, hv, h1, h2, h3⟩ := get_github_repo_info_body_ok o owner repo v hb
      exact Or.inr ⟨kvs, by simp [pyCatch, hb, hv], h1, h2, h3⟩

/-- The overall shape of `search_hackernews`: always a list of dicts. -/
theorem search_hackernews_shape (o : Oracle) (q : String) (c : Int) :
    ∃ xs, search_hackernews o q c = .list xs ∧ ∀ x ∈ xs, isDictB x = true := by
  unfold search_hackernews
  cases hb : search_hackernews_body o q (min (max 1 c) 20) with
  | error e =>
      refine ⟨[errDict (("Failed to search HackerNews: ") ++ e.msg)],
        by simp [pyCatch, hb], ?_⟩
      intro x hx
      rcases List.mem_cons.mp hx with hx | hx
      · subst hx
        rfl
      · cases hx
  | ok v =>
      obtain ⟨xs, hv, -, hdict⟩ := search_hackernews_body_ok o q _ v hb
      exact ⟨xs, by simp [pyCatch, hb, hv], hdict⟩

theorem pyInOp_str_list_dicts (s : String) (xs : List PyVal)
    (h : ∀ x ∈ xs, isDictB x = true) :
    pyInOp (.str s) (.list xs) = .ok false := by
  simp only [pyInOp]
  have hany : (xs.any fun x => pyBeq (.str s) x) = false := by
    rw [List.any_eq_false]
    intro x hx
    have hd := h x hx
    cases x with
    | dict kvs => simp [pyBeq]
    | none => cases hd
    | bool b => cases hd
    | int n => cases hd
    | float q => cases hd
    | str t => cases hd
    | list ys => cases hd
  rw [hany]
  rfl

/-! ## C6: totality and error embedding of the data handlers -/

/-- C6: every data-fetching handler is total over its inputs and every
oracle behaviour — the value it produces is always the structured shape
(a dict for `get_sampling_data` and `get_github_repo_info`, a list of dicts
for the five list handlers) — and whenever its `try` body raises, the
handler returns the corresponding structured value embedding the exception
message under `"error"` instead of propagating the exception. -/
theorem handlers_total_and_error_embedding
    (o : Oracle) (st ns query language since owner repo : String)
    (limit slimit count rcount : Int) :
    (isDictB (get_sampling_data o st ns) = true ∧
      (errorEmbeddedB (get_sampling_data o st ns) = true ∨
        (dLook (get_sampling_data o st ns) ("samples")).isSome = true)) ∧
    (listOfDictsB (sample_repositories_resource o language rcount) = true ∧
      ∀ e, sample_repositories_resource_body o language (min (max 1 rcount) 10) = .error e →
        sample_repositories_resource o language rcount =
          .list [errDict (("Failed to sample repositories: ") ++ e.msg)]) ∧
    (listOfDictsB (sample_hackernews_stories o count) = true ∧
      ∀ e, sample_hackernews_stories_body o (min (max 1 count) 20) = .error e →
        sample_hackernews_stories o count =
          .list [errDict (("Failed to sample HackerNews stories: ") ++ e.msg)]) ∧
    (listOfDictsB (get_hn_top_stories o limit) = true ∧
      ∀ e, get_hn_top_stories_body o (min (max 1 limit) 30) = .error e →
        get_hn_top_stories o limit =
          .list [errDict (("Failed to fetch HackerNews stories: ") ++ e.msg)]) ∧
    (listOfDictsB (search_hackernews o query slimit) = true ∧
      ∀ e, search_hackernews_body o query (min (max 1 slimit) 20) = .error e →
        search_hackernews o query slimit =
          .list [errDict (("Failed to search HackerNews: ") ++ e.msg)]) ∧
    (listOfDictsB (get_github_trending o language since) = true ∧
      ∀ e, get_github_trending_body o language
          (if since = ("daily") ∨ since = ("weekly") ∨ since = ("monthly")
           then since else ("daily")) = .error e →
        get_github_trending o language since =
          .list [errDict (("Failed to fetch GitHub trending repos: ") ++ e.msg)]) ∧
    (isDictB (get_github_repo_info o owner repo) = true ∧
      ∀ e, get_github_repo_info_body o owner repo = .error e →
        get_github_repo_info o owner repo =
          errDict (("Failed to fetch repository info: ") ++ e.msg)) := by
  refine ⟨⟨?_, ?_⟩, ⟨?_, ?_⟩, ⟨?_, ?_⟩, ⟨?_, ?_⟩, ⟨?_, ?_⟩, ⟨?_, ?_⟩, ⟨?_, ?_⟩⟩
  · by_cases hA : ∃ n, pyParseInt ns = some n ∧ 0 < n ∧ n ≤ 1000 ∧
        (st = ("random") ∨ st = ("sequential") ∨ st = ("distribution"))
    · obtain ⟨n, hn, hpos, hle, hst⟩ := hA
      obtain ⟨samples, heq, -, -⟩ := get_sampling_data_success o st ns n hn hpos hle hst
      rw [heq]
      rfl
    · obtain ⟨m, hm⟩ := get_sampling_data_error o st ns hA
      rw [hm]
      rfl
  · by_cases hA : ∃ n, pyParseInt ns = some n ∧ 0 < n ∧ n ≤ 1000 ∧
        (st = ("random") ∨ st = ("sequential") ∨ st = ("distribution"))
    · obtain ⟨n, hn, hpos, hle, hst⟩ := hA
      obtain ⟨samples, heq, -, -⟩ := get_sampling_data_success o st ns n hn hpos hle hst
      rw [heq]
      right
      simp [mkSamplingResult, dLook, List.lookup]
    · obtain ⟨m, hm⟩ := get_sampling_data_error o st ns hA
      rw [hm]
      left
      rfl
  · unfold sample_repositories_resource
    cases hb : sample_repositories_resource_body o language (min (max 1 rcount) 10) with
    | error e => simp [pyCatch, hb, listOfDictsB, errDict, isDictB]
    | ok v =>
        obtain ⟨xs, hv, -, hdict⟩ := sample_repositories_resource_body_ok o language _ v hb
        subst hv
        simp only [pyCatch, hb, listOfDictsB]
        exact List.all_eq_true.mpr hdict
  · intro e hb
    unfold sample_repositories_resource
    simp [pyCatch, hb]
  · unfold sample_hackernews_stories
    cases hb : sample_hackernews_stories_body o (min (max 1 count) 20) with
    | error e => simp [pyCatch, hb, listOfDictsB, errDict, isDictB]
    | ok v =>
        obtain ⟨xs, hv, -, hdict⟩ := sample_hackernews_stories_body_ok o _ v hb
        subst hv
        simp only [pyCatch, hb, listOfDictsB]
        exact List.all_eq_true.mpr hdict
  · intro e hb
    unfold sample_hackernews_stories
    simp [pyCatch, hb]
  · unfold get_hn_top_stories
    cases hb : get_hn_top_stories_body o (min (max 1 limit) 30) with
    | error e => simp [pyCatch, hb, listOfDictsB, errDict, isDictB]
    | ok v =>
        obtain ⟨xs, hv, -, hdict⟩ := get_hn_top_stories_body_ok o _ v hb
        subst hv
        simp only [pyCatch, hb, listOfDictsB]
        exact List.all_eq_true.mpr hdict
  · intro e hb
    unfold get_hn_top_stories
    simp [pyCatch, hb]
  · unfold search_hackernews
    cases hb : search_hackernews_body o query (min (max 1 slimit) 20) with
    | error e => simp [pyCatch, hb, listOfDictsB, errDict, isDictB]
    | ok v =>
        obtain ⟨xs, hv, -, hdict⟩ := search_hackernews_body_ok o query _ v hb
        subst hv
        simp only [pyCatch, hb, listOfDictsB]
        exact List.all_eq_true.mpr hdict
  · intro e hb
    unfold search_hackernews
    simp [pyCatch, hb]
  · unfold get_github_trending
    cases hb : get_github_trending_body o language
        (if since = ("daily") ∨ since = ("weekly") ∨ since = ("monthly")
         then since else ("daily")) with
    | error e => simp [pyCatch, hb, listOfDictsB, errDict, isDictB]
    | ok v =>
        obtain ⟨xs, hv, hdict⟩ := get_github_trending_body_ok o language _ v hb
        subst hv
        simp only [pyCatch, hb, listOfDictsB]
        exact List.all_eq_true.mpr hdict
  · intro e hb
    unfold get_github_trending
    simp [pyCatch, hb]
  · rcases get_github_repo_info_shape o owner repo with ⟨m, hm⟩ | ⟨kvs, hkvs, -, -, -⟩
    · rw [hm]
      rfl
    · rw [hkvs]
      rfl
  · intro e hb
    unfold get_github_repo_info
    simp [pyCatch, hb]

/-- Concrete instantiation of `handlers_total_and_error_embedding`: with the
offline oracle, `get_hn_top_stories` returns the one-element error list. -/
theorem handlers_total_and_error_embedding_witness :
    get_hn_top_stories oracleZ 10 =
      .list [errDict (("Failed to fetch HackerNews stories: ") ++ ("offline"))] :=
  ((handlers_total_and_error_embedding oracleZ ("s") ("1") ("q") ("py") ("daily")
      ("o") ("r") 10 5 5 3).2.2.2.1).2 (.exception ("offline")) rfl

/-! ## C9: size clamping of the list fetchers -/

/-- C9: each list-returning fetch operation clamps its size argument before
use — `get_hn_top_stories` to `[1, 30]`, `search_hackernews` to `[1, 20]`,
`sample_hackernews_stories` to `[1, 20]`, `sample_repositories_resource` to
`[1, 10]` — and always returns a list of at most the clamped length (the
error shape is a one-element list and every clamp is at least 1). -/
theorem fetch_length_clamps (o : Oracle) (query language : String)
    (limit slimit count rcount : Int) :
    (1 ≤ min (max 1 limit) 30 ∧ min (max 1 limit) 30 ≤ 30 ∧
      ∃ xs, get_hn_top_stories o limit = .list xs ∧
        xs.length ≤ (min (max 1 limit) 30).toNat) ∧
    (1 ≤ min (max 1 slimit) 20 ∧ min (max 1 slimit) 20 ≤ 20 ∧
      ∃ xs, search_hackernews o query slimit = .list xs ∧
        xs.length ≤ (min (max 1 slimit) 20).toNat) ∧
    (1 ≤ min (max 1 count) 20 ∧ min (max 1 count) 20 ≤ 20 ∧
      ∃ xs, sample_hackernews_stories o count = .list xs ∧
        xs.length ≤ (min (max 1 count) 20).toNat) ∧
    (1 ≤ min (max 1 rcount) 10 ∧ min (max 1 rcount) 10 ≤ 10 ∧
      ∃ xs, sample_repositories_resource o language rcount = .list xs ∧
        xs.length ≤ (min (max 1 rcount) 10).toNat) := by
  refine ⟨⟨by omega, by omega, ?_⟩, ⟨by omega, by omega, ?_⟩,
    ⟨by omega, by omega, ?_⟩, ⟨by omega, by omega, ?_⟩⟩
  · unfold get_hn_top_stories
    cases hb : get_hn_top_stories_body o (min (max 1 limit) 30) with
    | error e =>
        refine ⟨[errDict (("Failed to fetch HackerNews stories: ") ++ e.msg)],
          by simp [pyCatch, hb], ?_⟩
        simp only [List.length_cons, List.length_nil]
        omega
    | ok v =>
        obtain ⟨xs, hv, hlen, -⟩ := get_hn_top_stories_body_ok o _ v hb
        exact ⟨xs, by simp [pyCatch, hb, hv], hlen⟩
  · unfold search_hackernews
    cases hb : search_hackernews_body o query (min (max 1 slimit) 20) with
    | error e =>
        refine ⟨[errDict (("Failed to search HackerNews: ") ++ e.msg)],
          by simp [pyCatch, hb], ?_⟩
        simp only [List.length_cons, List.length_nil]
        omega
    | ok v =>
        obtain ⟨xs, hv, hlen, -⟩ := search_hackernews_body_ok o query _ v hb
        exact ⟨xs, by simp [pyCatch, hb, hv], hlen⟩
  · unfold sample_hackernews_stories
    cases hb : sample_hackernews_stories_body o (min (max 1 count) 20) with
    | error e =>
        refine ⟨[errDict (("Failed to sample HackerNews stories: ") ++ e.msg)],
          by simp [pyCatch, hb], ?_⟩
        simp only [List.length_cons, List.length_nil]
        omega
    | ok v =>
        obtain ⟨xs, hv, hlen, -⟩ := sample_hackernews_stories_body_ok o _ v hb
        exact ⟨xs, by simp [pyCatch, hb, hv], hlen⟩
  · unfold sample_repositories_resource
    cases hb : sample_repositories_resource_body o language (min (max 1 rcount) 10) with
    | error e =>
        refine ⟨[errDict (("Failed to sample repositories: ") ++ e.msg)],
          by simp [pyCatch, hb], ?_⟩
        simp only [List.length_cons, List.length_nil]
        omega
    | ok v =>
        obtain ⟨xs, hv, hlen, -⟩ := sample_repositories_resource_body_ok o language _ v hb
        exact ⟨xs, by simp [pyCatch, hb, hv], hlen⟩

/-! ## C2: the two sampling-based AI tools always fail -/

/-- C2: for every input and every external-API behaviour,
`analyze_hackernews_trends_with_ai` returns exactly the error dict produced
by `.get("content")` raising `AttributeError` on the plain list
`search_hackernews` returns, and `code_review_with_ai` returns an error dict
(either the `get_github_repo_info` error passed through, or the fixed
"Could not retrieve repository information", since the info dict never has a
`"content"` list and `repo_data` stays `None`); neither result ever carries
a `"sampling_request"` key. -/
theorem ai_tools_always_error (o : Oracle)
    (topic analysis_type owner repo focus : String) (count : Int) :
    (analyze_hackernews_trends_with_ai o topic count analysis_type =
      errDict (("Failed to analyze trends: ") ++ ("list object has no attribute get"))) ∧
    (dLook (analyze_hackernews_trends_with_ai o topic count analysis_type)
      ("sampling_request") = Option.none) ∧
    ((dLook (analyze_hackernews_trends_with_ai o topic count analysis_type)
      ("error")).isSome = true) ∧
    (∃ m, code_review_with_ai o owner repo focus = errDict m) ∧
    (dLook (code_review_with_ai o owner repo focus) ("sampling_request") = Option.none) ∧
    ((dLook (code_review_with_ai o owner repo focus) ("error")).isSome = true) := by
  have hana : analyze_hackernews_trends_with_ai o topic count analysis_type =
      errDict (("Failed to analyze trends: ") ++ ("list object has no attribute get")) := by
    obtain ⟨xs, hxs, hd⟩ := search_hackernews_shape o topic count
    have hin := pyInOp_str_list_dicts ("error") xs hd
    unfold analyze_hackernews_trends_with_ai
    simp only [hxs, hin, pyCatch, bind, Except.bind, pyGetD, throw, throwThe,
      MonadExceptOf.throw, PErr.msg]
    rfl
  have hcr : ∃ m, code_review_with_ai o owner repo focus = errDict m := by
    rcases get_github_repo_info_shape o owner repo with ⟨m, hm⟩ |
      ⟨kvs, hkvs, hcontent, herr, hany⟩
    · refine ⟨m, ?_⟩
      unfold code_review_with_ai
      have hin : pyInOp (.str ("error")) (errDict m) = .ok true := rfl
      simp only [hm, hin, pyCatch, bind, Except.bind, if_true]
      rfl
    · refine ⟨("Could not retrieve repository information"), ?_⟩
      unfold code_review_with_ai
      have hin : pyInOp (.str ("error")) (.dict kvs) = .ok false := by
        simp only [pyInOp, hany]
        rfl
      have hget : pyGetD (.dict kvs) ("content") (.list []) = pure (.list []) := by
        simp [pyGetD, hcontent]
      simp only [hkvs, hin, hget, pyCatch, bind, Except.bind, findRepoData,
        pyIterFor, pure, Except.pure, if_false]
      rfl
  obtain ⟨m, hm⟩ := hcr
  exact ⟨hana, by rw [hana]; rfl, by rw [hana]; rfl, ⟨m, hm⟩,
    by rw [hm]; rfl, by rw [hm]; rfl⟩

end PawsOnMCP
